import Mathlib

/-!
Verification of the rusty_connect_four engine specification.

This file shallowly embeds the Rust sources of the repository
(src/src/game_engine/board.rs, board_iters.rs, win_check.rs, heuristics.rs,
board_state.rs, transposition.rs, layer_generator.rs, tree_analysis.rs,
monte_carlo.rs, game_manager.rs and their earlier in-repo revisions under
src/src/) into Lean and proves or refutes the specification claims.

Modelling conventions:
* Rust u8 / usize / u32 values are modelled as Nat, isize as Int.  The
  program never reaches u8 overflow on the fields involved (column heights
  stay at most 6, column bitmaps stay below 64 on every board the program
  constructs), so plain Nat arithmetic is faithful.
* The fixed-size arrays [u8; BOARD_WIDTH] are modelled as lists of
  naturals together with the well-formedness predicate Board.WF stating
  that their length is BOARD_WIDTH.
* Rust's in-place mutation is modelled by explicit state passing:
  a &mut self method becomes a function returning the new value.
* The 64-bit hashes used by the transposition tables are modelled by the
  exact byte sequences that are hashed (Board::iter /
  Board::flipped_iter); this abstracts hash collisions away.
-/

/-- consts.rs: the number of pieces in a row required to win. -/
abbrev NUMBER_TO_WIN : Nat := 4

/-- consts.rs: the height of the board. -/
abbrev BOARD_HEIGHT : Nat := 6

/-- consts.rs: the width of the board. -/
abbrev BOARD_WIDTH : Nat := 7

/-- consts.rs: how much better an X in a row is than an X-1 in a row. -/
abbrev SCALING_HEURISTIC : Int := 10

/-- board.rs: a connect four board, bit-packed per column.
column_heights holds the number of pieces in each column and
column_bitmaps the colors of those pieces (bit i = color of the piece in
row i). -/
structure Board where
  column_heights : List Nat
  column_bitmaps : List Nat
deriving DecidableEq, Repr

/-- The Rust arrays have fixed length BOARD_WIDTH. -/
def Board.WF (b : Board) : Prop :=
  b.column_heights.length = BOARD_WIDTH ∧ b.column_bitmaps.length = BOARD_WIDTH

instance (b : Board) : Decidable b.WF := by
  unfold Board.WF; infer_instance

/-- board.rs: Board::default() — the empty board. -/
def Board.default : Board :=
  { column_heights := List.replicate 7 0, column_bitmaps := List.replicate 7 0 }

/-- board.rs: get_height — the height of the pieces in the given column. -/
def Board.get_height (b : Board) (col : Nat) : Nat :=
  b.column_heights.getD col 0

/-- board.rs: get_piece — boolean representation of the piece at (col, row),
none when the row is at or above the column height (OutOfBounds). -/
def Board.get_piece (b : Board) (col row : Nat) : Option Bool :=
  if row < b.get_height col then
    some (Nat.testBit (b.column_bitmaps.getD col 0) row)
  else
    none

/-- board.rs: drop_piece — drops a piece of the given color on top of the
column.  Returns the board after the call together with true on success and
false when the column was already full (FullColumn). -/
def Board.drop_piece (b : Board) (col : Nat) (color : Bool) : Board × Bool :=
  if b.get_height col < BOARD_HEIGHT then
    ({ column_heights := b.column_heights.set col (b.get_height col + 1),
       column_bitmaps :=
         b.column_bitmaps.set col
           (b.column_bitmaps.getD col 0 + (cond color 1 0) * 2 ^ b.get_height col) },
     true)
  else
    (b, false)

/-- board.rs: get_max_height — the height of the highest column. -/
def Board.get_max_height (b : Board) : Nat :=
  (((List.range BOARD_WIDTH).map b.get_height).foldl Nat.max 0)

/-- board.rs: is_full — whether every column has height BOARD_HEIGHT. -/
def Board.is_full (b : Board) : Bool :=
  (List.range BOARD_WIDTH).all fun col => b.get_height col == BOARD_HEIGHT

/-- board.rs: flip — reverses the column order (horizontal mirror). -/
def Board.flip (b : Board) : Board :=
  { column_heights := b.column_heights.reverse,
    column_bitmaps := b.column_bitmaps.reverse }

/-- board.rs: iter — the byte sequence hashed for the normal orientation. -/
def Board.iter (b : Board) : List Nat :=
  b.column_heights ++ b.column_bitmaps

/-- board.rs: flipped_iter — the byte sequence hashed for the mirrored
orientation. -/
def Board.flipped_iter (b : Board) : List Nat :=
  b.column_heights.reverse ++ b.column_bitmaps.reverse

/-- The canonicity invariant every board constructed by the program
satisfies: bits at or above the column height are zero (spec section 3
calls such bits garbage that must never be read; boards built by
drop_piece from Board::default never set them). -/
def Board.Canonical (b : Board) : Prop :=
  ∀ col, b.column_bitmaps.getD col 0 < 2 ^ b.get_height col

theorem canonical_iff (b : Board) :
    b.Canonical ↔ ∀ col < b.column_bitmaps.length, b.column_bitmaps.getD col 0 < 2 ^ b.get_height col := by
  constructor
  · intro h col _; exact h col
  · intro h col
    rcases Nat.lt_or_ge col b.column_bitmaps.length with hc | hc
    · exact h col hc
    · rw [List.getD_eq_default _ _ hc]
      exact Nat.pos_pow_of_pos _ (by norm_num)

instance (b : Board) : Decidable b.Canonical :=
  decidable_of_iff _ (canonical_iff b).symm

section C10Helpers

theorem getD_set_self (l : List Nat) (i : Nat) (v : Nat) (h : i < l.length) :
    (l.set i v).getD i 0 = v := by
  rw [List.getD_eq_getElem _ _ (by simpa using h)]
  simp [List.getElem_set, h]

theorem getD_set_other (l : List Nat) (i j : Nat) (v : Nat) (h : j ≠ i) :
    (l.set i v).getD j 0 = l.getD j 0 := by
  rcases Nat.lt_or_ge j l.length with hj | hj
  · rw [List.getD_eq_getElem _ _ (by simpa using hj), List.getD_eq_getElem _ _ hj]
    simp [List.getElem_set, (Ne.symm h)]
  · rw [List.getD_eq_default _ _ (by simpa using hj), List.getD_eq_default _ _ hj]

theorem testBit_add_pow_lower (bm : Nat) (h r : Nat) (c : Bool) (hr : r < h) :
    Nat.testBit (bm + (cond c 1 0) * 2 ^ h) r = Nat.testBit bm r := by
  cases c
  · simp
  · simp only [cond, one_mul]
    have hsplit : bm + 2 ^ h = bm + 2 ^ (h - r - 1) * 2 * 2 ^ r := by
      have h1 : 2 ^ (h - r - 1) * 2 * 2 ^ r = 2 ^ (h - r - 1 + 1 + r) := by
        rw [Nat.pow_add, Nat.pow_add, Nat.pow_one]
      have h2 : h - r - 1 + 1 + r = h := by omega
      rw [h1, h2]
    rw [Nat.testBit_to_div_mod, Nat.testBit_to_div_mod, hsplit,
      Nat.add_mul_div_right _ _ (Nat.pos_pow_of_pos r (by norm_num)),
      Nat.add_mul_mod_self_right]

theorem testBit_add_pow_top (bm : Nat) (h : Nat) (c : Bool) (hcan : bm < 2 ^ h) :
    Nat.testBit (bm + (cond c 1 0) * 2 ^ h) h = c := by
  cases c
  · simpa using Nat.testBit_eq_false_of_lt hcan
  · simp only [cond, one_mul]
    rw [Nat.testBit_to_div_mod,
      Nat.add_div_right _ (Nat.pos_pow_of_pos h (by norm_num)),
      Nat.div_eq_of_lt hcan]
    simp

end C10Helpers

/-- C10: drop_piece either fails on a full column leaving the board
untouched, or succeeds adding exactly one piece of the given color on top
of the chosen column, leaving every other column's height and every
previously readable cell unchanged. -/
theorem C10_drop_piece_frame (b : Board) (col : Nat) (color : Bool)
    (hwf : b.WF) (hcan : b.Canonical) (hcol : col < BOARD_WIDTH) :
    ((b.drop_piece col color).2 = false → (b.drop_piece col color).1 = b) ∧
    ((b.drop_piece col color).2 = true →
      let b' := (b.drop_piece col color).1
      b'.get_height col = b.get_height col + 1 ∧
      b'.get_piece col (b.get_height col) = some color ∧
      (∀ c, c ≠ col → b'.get_height c = b.get_height c) ∧
      (∀ c r, b.get_piece c r ≠ none → b'.get_piece c r = b.get_piece c r)) := by
  have hlen : col < b.column_heights.length := by rw [hwf.1]; exact hcol
  have hlenb : col < b.column_bitmaps.length := by rw [hwf.2]; exact hcol
  have hcan' : b.column_bitmaps.getD col 0 < 2 ^ b.column_heights.getD col 0 := hcan col
  by_cases hfull : b.get_height col < BOARD_HEIGHT
  · constructor
    · intro hcontra
      exfalso
      unfold Board.drop_piece at hcontra
      rw [if_pos hfull] at hcontra
      simp at hcontra
    · intro _
      have hfst : (b.drop_piece col color).1 =
          { column_heights := b.column_heights.set col (b.get_height col + 1),
            column_bitmaps :=
              b.column_bitmaps.set col
                (b.column_bitmaps.getD col 0 + (cond color 1 0) * 2 ^ b.get_height col) } := by
        unfold Board.drop_piece
        rw [if_pos hfull]
      refine ⟨?_, ?_, ?_, ?_⟩
      · show (b.drop_piece col color).1.get_height col = _
        rw [hfst]
        exact getD_set_self _ _ _ hlen
      · show (b.drop_piece col color).1.get_piece col (b.get_height col) = some color
        rw [hfst]
        unfold Board.get_piece Board.get_height
        simp only [getD_set_self _ _ _ hlen, getD_set_self _ _ _ hlenb]
        rw [if_pos (Nat.lt_succ_self _)]
        unfold Board.get_height at hcan'
        rw [testBit_add_pow_top _ _ _ hcan']
      · intro c hc
        show (b.drop_piece col color).1.get_height c = _
        rw [hfst]
        exact getD_set_other _ _ _ _ hc
      · intro c r hr
        show (b.drop_piece col color).1.get_piece c r = _
        rw [hfst]
        unfold Board.get_piece Board.get_height at hr ⊢
        by_cases hceq : c = col
        · subst hceq
          simp only [getD_set_self _ _ _ hlen, getD_set_self _ _ _ hlenb]
          by_cases hrlt : r < b.column_heights.getD c 0
          · rw [if_pos (Nat.lt_succ_of_lt hrlt)]
            rw [if_pos hrlt] at hr ⊢
            rw [testBit_add_pow_lower _ _ _ _ hrlt]
          · rw [if_neg hrlt] at hr
            exact absurd rfl hr
        · simp only [getD_set_other _ _ _ _ hceq]
  · constructor
    · intro _
      unfold Board.drop_piece
      rw [if_neg hfull]
    · intro hcontra
      exfalso
      unfold Board.drop_piece at hcontra
      rw [if_neg hfull] at hcontra
      simp at hcontra

/-- Witness for C10 at a concrete input: dropping color true into column 3
of the empty board. -/
theorem C10_drop_piece_frame_witness :
    Board.default.WF ∧ Board.default.Canonical ∧ 3 < BOARD_WIDTH ∧
    ((Board.default.drop_piece 3 true).2 = true →
      (Board.default.drop_piece 3 true).1.get_height 3 = Board.default.get_height 3 + 1) :=
  ⟨by decide, by decide, by decide,
   fun h => ((C10_drop_piece_frame Board.default 3 true (by decide) (by decide)
      (by decide)).2 h).1⟩

/-- board_iters.rs: HorizontalStripIter — one strip per row below the
maximum height, each strip reading all BOARD_WIDTH cells of that row. -/
def horizontal_strips (b : Board) : List (List (Option Bool)) :=
  (List.range b.get_max_height).map fun row =>
    (List.range BOARD_WIDTH).map fun col => b.get_piece col row

/-- board_iters.rs: VerticalStripIter — one strip per column, skipping
empty columns (and, when not full, columns shorter than NUMBER_TO_WIN);
a full strip is extended NUMBER_TO_WIN - 1 rows past the column height,
capped at BOARD_HEIGHT. -/
def vertical_strips (b : Board) (full : Bool) : List (List (Option Bool)) :=
  (List.range BOARD_WIDTH).filterMap fun col =>
    let col_height := b.get_height col
    if col_height = 0 ∨ (full = false ∧ col_height < NUMBER_TO_WIN) then none
    else
      let mh := if full then min (col_height + NUMBER_TO_WIN - 1) BOARD_HEIGHT else col_height
      some ((List.range mh).map fun row => b.get_piece col row)

/-- board_iters.rs: UpwardDiagonalStripIter — strips start at
(0, starting_row) down to (0,0) and then at (1,0) .. (BOARD_WIDTH -
NUMBER_TO_WIN, 0); each runs up-right until the column bound or the
(possibly extended) max height is reached. -/
def upward_diagonal_strips (b : Board) (full : Bool) : List (List (Option Bool)) :=
  let mh := if full then min (b.get_max_height + NUMBER_TO_WIN - 1) BOARD_HEIGHT
            else b.get_max_height
  let sr := mh - NUMBER_TO_WIN
  if full = false ∧ mh < NUMBER_TO_WIN then []
  else
    (((List.range (sr + 1)).reverse.map fun r => ((0 : Nat), r)) ++
      ((List.range (BOARD_WIDTH - NUMBER_TO_WIN)).map fun c => (c + 1, (0 : Nat)))).map
      fun (p : Nat × Nat) => (List.range (min (BOARD_WIDTH - p.1) (mh - p.2))).map
        fun k => b.get_piece (p.1 + k) (p.2 + k)

/-- board_iters.rs: DownwardDiagonalStripIter — strip states start at
(BOARD_WIDTH, starting_row) down to (BOARD_WIDTH, 0) and then at
(BOARD_WIDTH - 1, 0) .. (NUMBER_TO_WIN, 0); the stored column is one
ahead of the first cell, and each strip runs up-left. -/
def downward_diagonal_strips (b : Board) (full : Bool) : List (List (Option Bool)) :=
  let mh := if full then min (b.get_max_height + NUMBER_TO_WIN - 1) BOARD_HEIGHT
            else b.get_max_height
  let sr := mh - NUMBER_TO_WIN
  if full = false ∧ mh < NUMBER_TO_WIN then []
  else
    (((List.range (sr + 1)).reverse.map fun r => (BOARD_WIDTH, r)) ++
      ((List.range (BOARD_WIDTH - NUMBER_TO_WIN)).map fun c => (BOARD_WIDTH - 1 - c, (0 : Nat)))).map
      fun (p : Nat × Nat) => (List.range (min p.1 (mh - p.2))).map
        fun k => b.get_piece (p.1 - 1 - k) (p.2 + k)

/-- win_check.rs: increment_if_matching — extends the run count on a
matching piece, resets it on a mismatch or an out-of-bounds cell. -/
def increment_if_matching (in_a_row : Nat) (piece : Option Bool) (color : Bool) : Nat :=
  match piece with
  | some p => if p = color then in_a_row + 1 else 0
  | none => 0

/-- game_engine/win_check.rs: the inner loop of check_strips — walks one
strip keeping the current run length, returns true on a run of
NUMBER_TO_WIN, breaks early when the remaining cells cannot complete a
run. -/
def check_strip (color : Bool) : Nat → List (Option Bool) → Bool
  | _, [] => false
  | in_a_row, piece :: rest =>
    let i := increment_if_matching in_a_row piece color
    if i = NUMBER_TO_WIN then true
    else if i + rest.length < NUMBER_TO_WIN then false
    else check_strip color i rest

/-- game_engine/win_check.rs: check_strips over a strip family. -/
def check_strips (strips : List (List (Option Bool))) (color : Bool) : Bool :=
  strips.any fun s => check_strip color 0 s

/-- game_engine/win_check.rs: has_color_won — horizontal first, the other
three directions only when the board has reached NUMBER_TO_WIN rows. -/
def has_color_won (b : Board) (color : Bool) : Bool :=
  if check_strips (horizontal_strips b) color then true
  else if NUMBER_TO_WIN ≤ b.get_max_height then
    check_strips (vertical_strips b false) color ||
    check_strips (upward_diagonal_strips b false) color ||
    check_strips (downward_diagonal_strips b false) color
  else false

/-- heuristics.rs: the window positions the CircleBuffer yields over a
strip: all NUMBER_TO_WIN-wide windows, or the whole (OOB-padded) strip
once when it is shorter than NUMBER_TO_WIN. -/
def windows_of (s : List (Option Bool)) : List (List (Option Bool)) :=
  (List.range (max 1 (s.length - (NUMBER_TO_WIN - 1)))).map fun i =>
    (s.drop i).take NUMBER_TO_WIN

/-- heuristics.rs: the CircleBuffer piece count of one color inside a
window (out-of-bounds cells count for neither color). -/
def count_color (w : List (Option Bool)) (color : Bool) : Nat :=
  w.countP fun p => p == some color

/-- heuristics.rs: the contribution of one window position in
score_circle_buffer. -/
def score_window (w : List (Option Bool)) : Int :=
  let false_pieces := count_color w false
  let true_pieces := count_color w true
  if 0 < false_pieces ∧ true_pieces = 0 then
    -(SCALING_HEURISTIC ^ (false_pieces - 1))
  else if 0 < true_pieces ∧ false_pieces = 0 then
    SCALING_HEURISTIC ^ (true_pieces - 1)
  else 0

/-- heuristics.rs: score_circle_buffer — sums the window contributions of
one strip. -/
def score_circle_buffer (s : List (Option Bool)) : Int :=
  ((windows_of s).map score_window).foldl (· + ·) 0

/-- heuristics.rs: score_by_closeness_to_win — sums the scores of the
full strips of all four directions. -/
def score_by_closeness_to_win (b : Board) : Int :=
  ((horizontal_strips b).map score_circle_buffer).foldl (· + ·) 0 +
  ((vertical_strips b true).map score_circle_buffer).foldl (· + ·) 0 +
  ((upward_diagonal_strips b true).map score_circle_buffer).foldl (· + ·) 0 +
  ((downward_diagonal_strips b true).map score_circle_buffer).foldl (· + ·) 0

/-- heuristics.rs: how_good_is_board — the heuristic used at unexpanded
leaves (named how_good_is in the earlier in-repo revision). -/
def how_good_is_board (b : Board) : Int := score_by_closeness_to_win b

example : score_by_closeness_to_win ⟨[0,0,0,4,0,0,0], [0,0,0,14,0,0,0]⟩ = 132 := by decide

example : has_color_won ⟨[4,0,0,0,0,0,0], [0,0,0,0,0,0,0]⟩ false = true := by decide

example : has_color_won ⟨[4,0,0,0,0,0,0], [0,0,0,0,0,0,0]⟩ true = false := by decide

/-- The window semantics of the strip scanners: some NUMBER_TO_WIN
consecutive positions of the strip all hold the given color. -/
def has_run (s : List (Option Bool)) (color : Bool) : Prop :=
  ∃ i, i + NUMBER_TO_WIN ≤ s.length ∧ ∀ k < NUMBER_TO_WIN, s.getD (i + k) none = some color

theorem has_run_iff_bounded (s : List (Option Bool)) (color : Bool) :
    has_run s color ↔
      ∃ i < s.length, i + NUMBER_TO_WIN ≤ s.length ∧
        ∀ k < NUMBER_TO_WIN, s.getD (i + k) none = some color := by
  constructor
  · rintro ⟨i, hlen, hall⟩
    simp only [NUMBER_TO_WIN] at hlen
    exact ⟨i, by omega, by simpa [NUMBER_TO_WIN] using hlen, hall⟩
  · rintro ⟨i, _, hlen, hall⟩
    exact ⟨i, hlen, hall⟩

instance (s : List (Option Bool)) (color : Bool) : Decidable (has_run s color) :=
  decidable_of_iff _ (has_run_iff_bounded s color).symm

theorem has_run_cons (p : Option Bool) (rest : List (Option Bool)) (color : Bool) :
    has_run (p :: rest) color ↔
      (p = some color ∧ 3 ≤ rest.length ∧ ∀ j < 3, rest.getD j none = some color) ∨
      has_run rest color := by
  constructor
  · rintro ⟨i, hlen, hall⟩
    simp only [NUMBER_TO_WIN] at hlen hall ⊢
    cases i with
    | zero =>
      left
      refine ⟨by simpa using hall 0 (by norm_num), by simp at hlen; omega, fun j hj => ?_⟩
      have := hall (j + 1) (by omega)
      simpa using this
    | succ i' =>
      right
      refine ⟨i', by simp [NUMBER_TO_WIN]; simp at hlen; omega, fun k hk => ?_⟩
      simp only [NUMBER_TO_WIN] at hk
      have := hall k hk
      have harith : i' + 1 + k = (i' + k) + 1 := by omega
      rw [harith] at this
      simpa using this
  · rintro (⟨hp, hlen, hall⟩ | ⟨i, hlen, hall⟩)
    · refine ⟨0, by simp [NUMBER_TO_WIN]; omega, fun k hk => ?_⟩
      simp only [NUMBER_TO_WIN] at hk
      cases k with
      | zero => simpa using hp
      | succ k' => simpa using hall k' (by omega)
    · simp only [NUMBER_TO_WIN] at hlen
      refine ⟨i + 1, by simp [NUMBER_TO_WIN]; omega, fun k hk => ?_⟩
      have harith : i + 1 + k = (i + k) + 1 := by omega
      rw [harith]
      simpa using hall k hk

theorem prefix_match_cons (p : Option Bool) (rest : List (Option Bool)) (color : Bool)
    (m : Nat) (hm : 1 ≤ m) :
    (m ≤ (p :: rest).length ∧ ∀ j < m, (p :: rest).getD j none = some color) ↔
      (p = some color ∧ m - 1 ≤ rest.length ∧ ∀ j < m - 1, rest.getD j none = some color) := by
  constructor
  · rintro ⟨hlen, hall⟩
    refine ⟨by simpa using hall 0 hm, by simp at hlen; omega, fun j hj => ?_⟩
    have := hall (j + 1) (by omega)
    simpa using this
  · rintro ⟨hp, hlen, hall⟩
    refine ⟨by simp; omega, fun j hj => ?_⟩
    cases j with
    | zero => simpa using hp
    | succ j' => simpa using hall j' (by omega)

/-- win_check.rs (earlier in-repo revision): the inner loops of
has_horizontal_win and both diagonal checks — the same run counter as
check_strip but with no early break. -/
def scan_no_break (color : Bool) : Nat → List (Option Bool) → Bool
  | _, [] => false
  | in_a_row, piece :: rest =>
    let i := increment_if_matching in_a_row piece color
    if i = NUMBER_TO_WIN then true
    else scan_no_break color i rest

theorem scan_no_break_iff (color : Bool) (s : List (Option Bool)) :
    ∀ k, k < 4 →
      (scan_no_break color k s = true ↔
        (4 - k ≤ s.length ∧ ∀ j < 4 - k, s.getD j none = some color) ∨ has_run s color) := by
  induction s with
  | nil =>
    intro k hk
    simp only [scan_no_break]
    constructor
    · intro h; cases h
    · rintro (⟨hlen, _⟩ | ⟨i, hlen, _⟩)
      · simp at hlen; omega
      · simp only [NUMBER_TO_WIN] at hlen; simp at hlen
  | cons p rest ih =>
    intro k hk
    rw [has_run_cons]
    by_cases hp : p = some color
    · subst hp
      have hincr : increment_if_matching k (some color) color = k + 1 := by
        simp [increment_if_matching]
      by_cases hk3 : k = 3
      · subst hk3
        constructor
        · intro _
          left
          refine ⟨by simp, fun j hj => ?_⟩
          interval_cases j
          simp
        · intro _
          simp [scan_no_break, hincr, NUMBER_TO_WIN]
      · have hlt : k + 1 < 4 := by omega
        have hstep : scan_no_break color k (some color :: rest) =
            scan_no_break color (k + 1) rest := by
          simp only [scan_no_break, hincr]
          rw [if_neg (by simp only [NUMBER_TO_WIN]; omega)]
        rw [hstep, ih (k + 1) hlt]
        rw [prefix_match_cons _ _ _ _ (by omega)]
        constructor
        · rintro (⟨hlen, hall⟩ | hrun)
          · left
            exact ⟨rfl, by omega, fun j hj => hall j (by omega)⟩
          · right; right; exact hrun
        · rintro (⟨_, hlen, hall⟩ | (⟨_, hlen3, hall3⟩ | hrun))
          · left; exact ⟨by omega, fun j hj => hall j (by omega)⟩
          · left; exact ⟨by omega, fun j hj => hall3 j (by omega)⟩
          · right; exact hrun
    · have hincr : increment_if_matching k p color = 0 := by
        cases p with
        | none => simp [increment_if_matching]
        | some v =>
          have : ¬ v = color := fun h => hp (by rw [h])
          simp [increment_if_matching, this]
      have hstep : scan_no_break color k (p :: rest) = scan_no_break color 0 rest := by
        simp only [scan_no_break, hincr]
        rw [if_neg (by simp only [NUMBER_TO_WIN]; omega)]
      rw [hstep, ih 0 (by omega)]
      constructor
      · rintro (⟨hlen, hall⟩ | hrun)
        · right; right
          refine ⟨0, by simp only [NUMBER_TO_WIN]; omega, fun j hj => ?_⟩
          simp only [NUMBER_TO_WIN] at hj
          simpa using hall j (by omega)
        · right; right; exact hrun
      · rintro (⟨hlen, hall⟩ | (⟨hpc, hlen3, hall3⟩ | hrun))
        · exfalso
          exact hp (by simpa using hall 0 (by omega))
        · exact absurd hpc hp
        · right; exact hrun

theorem check_strip_iff (color : Bool) (s : List (Option Bool)) :
    ∀ k, k < 4 →
      (check_strip color k s = true ↔
        (4 - k ≤ s.length ∧ ∀ j < 4 - k, s.getD j none = some color) ∨ has_run s color) := by
  induction s with
  | nil =>
    intro k hk
    simp only [check_strip]
    constructor
    · intro h; cases h
    · rintro (⟨hlen, _⟩ | ⟨i, hlen, _⟩)
      · simp at hlen; omega
      · simp only [NUMBER_TO_WIN] at hlen; simp at hlen
  | cons p rest ih =>
    intro k hk
    rw [has_run_cons]
    by_cases hp : p = some color
    · subst hp
      have hincr : increment_if_matching k (some color) color = k + 1 := by
        simp [increment_if_matching]
      by_cases hk3 : k = 3
      · subst hk3
        constructor
        · intro _
          left
          refine ⟨by simp, fun j hj => ?_⟩
          interval_cases j
          simp
        · intro _
          simp [check_strip, hincr, NUMBER_TO_WIN]
      · have hlt : k + 1 < 4 := by omega
        by_cases hbreak : k + 1 + rest.length < 4
        · have hstep : check_strip color k (some color :: rest) = false := by
            simp only [check_strip, hincr]
            rw [if_neg (by simp only [NUMBER_TO_WIN]; omega),
              if_pos (by simp only [NUMBER_TO_WIN]; omega)]
          rw [hstep]
          constructor
          · intro h; cases h
          · rintro (⟨hlen, _⟩ | (⟨_, hlen3, _⟩ | ⟨i, hlen, _⟩))
            · simp at hlen; omega
            · omega
            · simp only [NUMBER_TO_WIN, List.length_cons] at hlen; omega
        · have hstep : check_strip color k (some color :: rest) =
              check_strip color (k + 1) rest := by
            simp only [check_strip, hincr]
            rw [if_neg (by simp only [NUMBER_TO_WIN]; omega),
              if_neg (by simp only [NUMBER_TO_WIN]; omega)]
          rw [hstep, ih (k + 1) hlt]
          rw [prefix_match_cons _ _ _ _ (by omega)]
          constructor
          · rintro (⟨hlen, hall⟩ | hrun)
            · left
              exact ⟨rfl, by omega, fun j hj => hall j (by omega)⟩
            · right; right; exact hrun
          · rintro (⟨_, hlen, hall⟩ | (⟨_, hlen3, hall3⟩ | hrun))
            · left; exact ⟨by omega, fun j hj => hall j (by omega)⟩
            · left; exact ⟨by omega, fun j hj => hall3 j (by omega)⟩
            · right; exact hrun
    · have hincr : increment_if_matching k p color = 0 := by
        cases p with
        | none => simp [increment_if_matching]
        | some v =>
          have : ¬ v = color := fun h => hp (by rw [h])
          simp [increment_if_matching, this]
      by_cases hbreak : rest.length < 4
      · have hstep : check_strip color k (p :: rest) = false := by
          simp only [check_strip, hincr]
          rw [if_neg (by simp only [NUMBER_TO_WIN]; omega),
            if_pos (by simp only [NUMBER_TO_WIN]; omega)]
        rw [hstep]
        constructor
        · intro h; cases h
        · rintro (⟨hlen, hall⟩ | (⟨hpc, _, _⟩ | ⟨i, hlen, hall⟩))
          · have h0 := hall 0 (by omega)
            rw [List.getD_cons_zero] at h0
            exact absurd h0 hp
          · exact absurd hpc hp
          · simp only [NUMBER_TO_WIN, List.length_cons] at hlen; omega
      · have hstep : check_strip color k (p :: rest) = check_strip color 0 rest := by
          simp only [check_strip, hincr]
          rw [if_neg (by simp only [NUMBER_TO_WIN]; omega),
            if_neg (by simp only [NUMBER_TO_WIN]; omega)]
        rw [hstep, ih 0 (by omega)]
        constructor
        · rintro (⟨hlen, hall⟩ | hrun)
          · right; right
            refine ⟨0, by simp only [NUMBER_TO_WIN]; omega, fun j hj => ?_⟩
            simp only [NUMBER_TO_WIN] at hj
            simpa using hall j (by omega)
          · right; right; exact hrun
        · rintro (⟨hlen, hall⟩ | (⟨hpc, hlen3, hall3⟩ | hrun))
          · exfalso
            exact hp (by simpa using hall 0 (by omega))
          · exact absurd hpc hp
          · right; exact hrun

theorem check_strip_zero_iff (color : Bool) (s : List (Option Bool)) :
    check_strip color 0 s = true ↔ has_run s color := by
  rw [check_strip_iff color s 0 (by omega)]
  constructor
  · rintro (⟨hlen, hall⟩ | hrun)
    · exact ⟨0, by simp only [NUMBER_TO_WIN]; omega, fun j hj => by
        simp only [NUMBER_TO_WIN] at hj
        simpa using hall j (by omega)⟩
    · exact hrun
  · intro hrun; right; exact hrun

theorem scan_no_break_zero_iff (color : Bool) (s : List (Option Bool)) :
    scan_no_break color 0 s = true ↔ has_run s color := by
  rw [scan_no_break_iff color s 0 (by omega)]
  constructor
  · rintro (⟨hlen, hall⟩ | hrun)
    · exact ⟨0, by simp only [NUMBER_TO_WIN]; omega, fun j hj => by
        simp only [NUMBER_TO_WIN] at hj
        simpa using hall j (by omega)⟩
    · exact hrun
  · intro hrun; right; exact hrun

theorem getD_map_range (L : Nat) (f : Nat → Option Bool) (j : Nat) (hj : j < L) :
    ((List.range L).map f).getD j none = f j := by
  rw [List.getD_eq_getElem _ _ (by simpa using hj)]
  simp

theorem has_run_map_range (L : Nat) (f : Nat → Option Bool) (color : Bool) :
    has_run ((List.range L).map f) color ↔
      ∃ i, i + 4 ≤ L ∧ ∀ k < 4, f (i + k) = some color := by
  unfold has_run
  simp only [NUMBER_TO_WIN, List.length_map, List.length_range]
  constructor
  · rintro ⟨i, hlen, hall⟩
    refine ⟨i, hlen, fun k hk => ?_⟩
    have := hall k hk
    rwa [getD_map_range _ _ _ (by omega)] at this
  · rintro ⟨i, hlen, hall⟩
    refine ⟨i, hlen, fun k hk => ?_⟩
    rw [getD_map_range _ _ _ (by omega)]
    exact hall k hk

theorem getD_reverse_eq (s : List (Option Bool)) (j : Nat) (hj : j < s.length) :
    s.reverse.getD j none = s.getD (s.length - 1 - j) none := by
  rw [List.getD_eq_getElem _ _ (by simpa using hj),
    List.getD_eq_getElem _ _ (by omega)]
  exact List.getElem_reverse ..

theorem has_run_reverse_mp (s : List (Option Bool)) (color : Bool)
    (h : has_run s.reverse color) : has_run s color := by
  obtain ⟨i, hlen, hall⟩ := h
  simp only [NUMBER_TO_WIN, List.length_reverse] at hlen hall
  refine ⟨s.length - 4 - i, by simp only [NUMBER_TO_WIN]; omega, fun k hk => ?_⟩
  simp only [NUMBER_TO_WIN] at hk
  have h3 := hall (3 - k) (by omega)
  rw [getD_reverse_eq _ _ (by omega)] at h3
  have harith : s.length - 1 - (i + (3 - k)) = s.length - 4 - i + k := by omega
  rwa [harith] at h3

theorem has_run_reverse (s : List (Option Bool)) (color : Bool) :
    has_run s.reverse color ↔ has_run s color := by
  constructor
  · exact has_run_reverse_mp s color
  · intro h
    exact has_run_reverse_mp s.reverse color (by rwa [List.reverse_reverse])

theorem check_strip_zero_reverse (color : Bool) (s : List (Option Bool)) :
    check_strip color 0 s.reverse = check_strip color 0 s := by
  rcases h : check_strip color 0 s with _ | _
  · rcases h2 : check_strip color 0 s.reverse with _ | _
    · rfl
    · exfalso
      have := (check_strip_zero_iff color s.reverse).mp h2
      rw [has_run_reverse] at this
      rw [← check_strip_zero_iff color s] at this
      rw [h] at this
      cases this
  · rw [check_strip_zero_iff color s] at h
    rw [← has_run_reverse] at h
    rwa [← check_strip_zero_iff color s.reverse] at h

section FlipHelpers

theorem getD_reverse_poly {α : Type} (l : List α) (d : α) (j : Nat) (hj : j < l.length) :
    l.reverse.getD j d = l.getD (l.length - 1 - j) d := by
  rw [List.getD_eq_getElem _ _ (by simpa using hj),
    List.getD_eq_getElem _ _ (by omega)]
  exact List.getElem_reverse ..

theorem get_height_flip (b : Board) (hwf : b.WF) (col : Nat) (hcol : col < BOARD_WIDTH) :
    b.flip.get_height col = b.get_height (6 - col) := by
  unfold Board.flip Board.get_height
  simp only
  rw [getD_reverse_poly _ _ _ (by rw [hwf.1]; exact hcol), hwf.1]
  norm_num

theorem get_piece_flip (b : Board) (hwf : b.WF) (col row : Nat) (hcol : col < BOARD_WIDTH) :
    b.flip.get_piece col row = b.get_piece (6 - col) row := by
  unfold Board.get_piece
  rw [get_height_flip b hwf col hcol]
  unfold Board.flip
  simp only
  rw [getD_reverse_poly _ _ _ (by rw [hwf.2]; exact hcol), hwf.2]
  norm_num

theorem foldl_max_eq_max_foldr (l : List Nat) : ∀ a, l.foldl Nat.max a = Nat.max a (l.foldr Nat.max 0) := by
  induction l with
  | nil => intro a; simp
  | cons x t ih =>
    intro a
    simp only [List.foldl_cons, List.foldr_cons, ih (Nat.max a x)]
    exact Nat.max_assoc ..

theorem foldl_max_flip_arg (l : List Nat) : ∀ a, l.foldl (fun x y => Nat.max y x) a = l.foldl Nat.max a := by
  induction l with
  | nil => intro a; rfl
  | cons x t ih =>
    intro a
    simp only [List.foldl_cons, ih]
    have : Nat.max x a = Nat.max a x := Nat.max_comm x a
    rw [this]

theorem foldl_max_reverse (l : List Nat) : l.reverse.foldl Nat.max 0 = l.foldl Nat.max 0 := by
  rw [foldl_max_eq_max_foldr l.reverse 0, List.foldr_reverse, foldl_max_flip_arg,
    foldl_max_eq_max_foldr l 0]
  simp [Nat.max_def]

theorem map_range_get_height_flip (b : Board) (hwf : b.WF) :
    (List.range BOARD_WIDTH).map b.flip.get_height =
      ((List.range BOARD_WIDTH).map b.get_height).reverse := by
  apply List.ext_getElem
  · simp
  · intro i h1 h2
    simp only [List.length_map, List.length_range] at h1
    rw [List.getElem_reverse]
    simp only [List.getElem_map, List.getElem_range]
    rw [get_height_flip b hwf i h1]
    try congr 1
    try omega

theorem get_max_height_flip (b : Board) (hwf : b.WF) :
    b.flip.get_max_height = b.get_max_height := by
  unfold Board.get_max_height
  rw [map_range_get_height_flip b hwf, foldl_max_reverse]

end FlipHelpers

theorem horizontal_strips_flip (b : Board) (hwf : b.WF) :
    horizontal_strips b.flip = (horizontal_strips b).map List.reverse := by
  unfold horizontal_strips
  rw [get_max_height_flip b hwf, List.map_map]
  apply List.ext_getElem
  · simp
  · intro row h1 h2
    simp only [List.length_map, List.length_range] at h1
    simp only [List.getElem_map, List.getElem_range, Function.comp]
    apply List.ext_getElem
    · simp
    · intro i g1 g2
      simp only [List.length_map, List.length_range] at g1
      rw [List.getElem_reverse]
      simp only [List.getElem_map, List.getElem_range]
      rw [get_piece_flip b hwf i row g1]
      try congr 1
      try simp only [List.length_map, List.length_range]
      try omega

theorem filterMap_range_flip {α : Type} :
    ∀ (n : Nat) (f : Nat → Option α),
      List.filterMap (fun i => f (n - 1 - i)) (List.range n) =
        (List.filterMap f (List.range n)).reverse := by
  intro n
  induction n with
  | zero => intro f; simp
  | succ m ih =>
    intro f
    have hsplit : List.range (m + 1) = List.range m ++ [m] := by
      simpa using List.range_succ (n := m)
    have hcons : List.range (m + 1) = 0 :: (List.range m).map (· + 1) := by
      simpa using List.range_succ_eq_map m
    conv_lhs => rw [hsplit]
    conv_rhs => rw [hcons]
    have hchunk : List.filterMap (fun i => f (m + 1 - 1 - i)) (List.range m) =
        (List.filterMap f ((List.range m).map (· + 1))).reverse := by
      have heq : List.filterMap (fun i => f (m + 1 - 1 - i)) (List.range m) =
          List.filterMap (fun i => (fun j => f (j + 1)) (m - 1 - i)) (List.range m) := by
        apply List.filterMap_congr
        intro x hx
        rw [List.mem_range] at hx
        congr 1
        omega
      rw [heq, ih (fun j => f (j + 1)), List.filterMap_map]
      rfl
    rw [List.filterMap_append, hchunk]
    have hm0 : m + 1 - 1 - m = 0 := by omega
    rw [List.filterMap_cons, List.filterMap_cons, hm0]
    cases h0 : f 0 with
    | none => simp
    | some v => simp

/-- The per-column step of vertical_strips, named for use in proofs. -/
def vertical_col (b : Board) (full : Bool) (col : Nat) : Option (List (Option Bool)) :=
  if b.get_height col = 0 ∨ (full = false ∧ b.get_height col < NUMBER_TO_WIN) then none
  else
    some ((List.range (if full then min (b.get_height col + NUMBER_TO_WIN - 1) BOARD_HEIGHT
                       else b.get_height col)).map fun row => b.get_piece col row)

theorem vertical_strips_eq (b : Board) (full : Bool) :
    vertical_strips b full = List.filterMap (vertical_col b full) (List.range BOARD_WIDTH) := rfl

theorem vertical_col_flip (b : Board) (hwf : b.WF) (full : Bool) (col : Nat)
    (hcol : col < BOARD_WIDTH) :
    vertical_col b.flip full col = vertical_col b full (6 - col) := by
  unfold vertical_col
  rw [get_height_flip b hwf col hcol]
  by_cases hcond : b.get_height (6 - col) = 0 ∨ (full = false ∧ b.get_height (6 - col) < NUMBER_TO_WIN)
  · rw [if_pos hcond, if_pos hcond]
  · rw [if_neg hcond, if_neg hcond]
    congr 1
    apply List.map_congr_left
    intro row _
    exact get_piece_flip b hwf col row hcol

theorem vertical_strips_flip (b : Board) (hwf : b.WF) (full : Bool) :
    vertical_strips b.flip full = (vertical_strips b full).reverse := by
  rw [vertical_strips_eq, vertical_strips_eq]
  have hptw : List.filterMap (vertical_col b.flip full) (List.range BOARD_WIDTH) =
      List.filterMap (fun col => vertical_col b full (BOARD_WIDTH - 1 - col)) (List.range BOARD_WIDTH) := by
    apply List.filterMap_congr
    intro col hcol
    rw [List.mem_range] at hcol
    rw [vertical_col_flip b hwf full col hcol]
    congr 1
  rw [hptw, filterMap_range_flip]

/-- The (possibly extended) scan bound the diagonal strip iterators use. -/
def diag_bound (b : Board) (full : Bool) : Nat :=
  if full then min (b.get_max_height + NUMBER_TO_WIN - 1) BOARD_HEIGHT else b.get_max_height

/-- One upward-diagonal strip, read from its starting cell. -/
def up_strip_at (b : Board) (mh : Nat) (p : Nat × Nat) : List (Option Bool) :=
  (List.range (min (BOARD_WIDTH - p.1) (mh - p.2))).map fun k => b.get_piece (p.1 + k) (p.2 + k)

/-- One downward-diagonal strip, read from its (one-ahead) iterator state. -/
def down_strip_at (b : Board) (mh : Nat) (p : Nat × Nat) : List (Option Bool) :=
  (List.range (min p.1 (mh - p.2))).map fun k => b.get_piece (p.1 - 1 - k) (p.2 + k)

theorem upward_strips_eq (b : Board) (full : Bool) :
    upward_diagonal_strips b full =
      if full = false ∧ diag_bound b full < NUMBER_TO_WIN then []
      else
        (((List.range (diag_bound b full - NUMBER_TO_WIN + 1)).reverse.map fun r => ((0 : Nat), r)) ++
          ((List.range (BOARD_WIDTH - NUMBER_TO_WIN)).map fun c => (c + 1, (0 : Nat)))).map
          (up_strip_at b (diag_bound b full)) := rfl

theorem downward_strips_eq (b : Board) (full : Bool) :
    downward_diagonal_strips b full =
      if full = false ∧ diag_bound b full < NUMBER_TO_WIN then []
      else
        (((List.range (diag_bound b full - NUMBER_TO_WIN + 1)).reverse.map fun r => (BOARD_WIDTH, r)) ++
          ((List.range (BOARD_WIDTH - NUMBER_TO_WIN)).map fun c => (BOARD_WIDTH - 1 - c, (0 : Nat)))).map
          (down_strip_at b (diag_bound b full)) := rfl

theorem diag_bound_flip (b : Board) (hwf : b.WF) (full : Bool) :
    diag_bound b.flip full = diag_bound b full := by
  unfold diag_bound
  rw [get_max_height_flip b hwf]

theorem flip_flip (b : Board) : b.flip.flip = b := by
  unfold Board.flip
  simp

theorem flip_wf (b : Board) (hwf : b.WF) : b.flip.WF := by
  unfold Board.WF Board.flip at *
  simpa using hwf

theorem upward_strips_flip (b : Board) (hwf : b.WF) (full : Bool) :
    upward_diagonal_strips b.flip full = downward_diagonal_strips b full := by
  rw [upward_strips_eq, downward_strips_eq, diag_bound_flip b hwf]
  by_cases hcond : full = false ∧ diag_bound b full < NUMBER_TO_WIN
  · rw [if_pos hcond, if_pos hcond]
  · rw [if_neg hcond, if_neg hcond]
    rw [List.map_append, List.map_append, List.map_map, List.map_map, List.map_map, List.map_map]
    congr 1
    · apply List.map_congr_left
      intro r _
      show up_strip_at b.flip (diag_bound b full) (0, r) =
        down_strip_at b (diag_bound b full) (BOARD_WIDTH, r)
      unfold up_strip_at down_strip_at
      simp only
      apply List.map_congr_left
      intro k hk
      rw [List.mem_range] at hk
      simp only [BOARD_WIDTH, NUMBER_TO_WIN] at hk
      rw [get_piece_flip b hwf (0 + k) (r + k) (by simp only [BOARD_WIDTH]; omega)]
      congr 1
      simp only [BOARD_WIDTH]
      omega
    · apply List.map_congr_left
      intro c hc
      rw [List.mem_range] at hc
      show up_strip_at b.flip (diag_bound b full) (c + 1, 0) =
        down_strip_at b (diag_bound b full) (BOARD_WIDTH - 1 - c, 0)
      unfold up_strip_at down_strip_at
      simp only
      have hlen : min (BOARD_WIDTH - (c + 1)) (diag_bound b full - 0) =
          min (BOARD_WIDTH - 1 - c) (diag_bound b full - 0) := by
        simp only [BOARD_WIDTH]
        omega
      rw [hlen]
      apply List.map_congr_left
      intro k hk
      rw [List.mem_range] at hk
      simp only [BOARD_WIDTH, NUMBER_TO_WIN] at hk hc
      rw [get_piece_flip b hwf (c + 1 + k) (0 + k) (by simp only [BOARD_WIDTH]; omega)]
      congr 1
      simp only [BOARD_WIDTH]
      omega

theorem downward_strips_flip (b : Board) (hwf : b.WF) (full : Bool) :
    downward_diagonal_strips b.flip full = upward_diagonal_strips b full := by
  have h := upward_strips_flip b.flip (flip_wf b hwf) full
  rw [flip_flip] at h
  exact h.symm

theorem any_map_eq {α β : Type} (l : List α) (f : α → β) (p : β → Bool) :
    (l.map f).any p = l.any fun x => p (f x) := by
  induction l with
  | nil => rfl
  | cons x t ih => simp [List.any_cons, ih]

theorem check_strips_map_reverse (strips : List (List (Option Bool))) (color : Bool) :
    check_strips (strips.map List.reverse) color = check_strips strips color := by
  unfold check_strips
  rw [any_map_eq]
  congr 1
  funext s
  exact check_strip_zero_reverse color s

theorem check_strips_reverse (strips : List (List (Option Bool))) (color : Bool) :
    check_strips strips.reverse color = check_strips strips color := by
  unfold check_strips
  rw [List.any_reverse]

theorem bool_or_swap (x y z : Bool) : (x || y || z) = (x || z || y) := by
  cases x <;> cases y <;> cases z <;> rfl

/-- The win status of each color is invariant under Board::flip. -/
theorem has_color_won_flip (b : Board) (hwf : b.WF) (color : Bool) :
    has_color_won b.flip color = has_color_won b color := by
  unfold has_color_won
  rw [horizontal_strips_flip b hwf, check_strips_map_reverse,
    get_max_height_flip b hwf,
    vertical_strips_flip b hwf, check_strips_reverse,
    upward_strips_flip b hwf, downward_strips_flip b hwf]
  rw [bool_or_swap (check_strips (vertical_strips b false) color)
    (check_strips (downward_diagonal_strips b false) color)
    (check_strips (upward_diagonal_strips b false) color)]

theorem count_color_reverse (w : List (Option Bool)) (color : Bool) :
    count_color w.reverse color = count_color w color := by
  unfold count_color
  exact List.countP_reverse _ _

theorem score_window_reverse (w : List (Option Bool)) :
    score_window w.reverse = score_window w := by
  unfold score_window
  rw [count_color_reverse, count_color_reverse]

theorem window_reverse_eq (s : List (Option Bool)) (i : Nat) (hi : i + 4 ≤ s.length) :
    (s.reverse.drop i).take 4 = ((s.drop (s.length - 4 - i)).take 4).reverse := by
  apply List.ext_getElem
  · simp
    omega
  · intro j h1 h2
    simp only [List.length_take, List.length_drop, List.length_reverse] at h1
    have hj : j < 4 := by omega
    rw [List.getElem_take, List.getElem_drop, List.getElem_reverse, List.getElem_reverse,
      List.getElem_take, List.getElem_drop]
    congr 1
    simp only [List.length_take, List.length_drop]
    omega

theorem map_range_flipidx {α : Type} (n : Nat) (f : Nat → α) :
    (List.range n).map (fun i => f (n - 1 - i)) = ((List.range n).map f).reverse := by
  apply List.ext_getElem
  · simp
  · intro j h1 h2
    simp only [List.length_map, List.length_range] at h1
    rw [List.getElem_reverse]
    simp only [List.getElem_map, List.getElem_range]
    try congr 1
    try simp only [List.length_map, List.length_range]
    try omega

theorem score_circle_buffer_reverse (s : List (Option Bool)) :
    score_circle_buffer s.reverse = score_circle_buffer s := by
  unfold score_circle_buffer windows_of
  rw [List.map_map, List.map_map]
  by_cases hlen : s.length < 4
  · have h1 : max 1 (s.length - (NUMBER_TO_WIN - 1)) = 1 := by simp only [NUMBER_TO_WIN]; omega
    have h1r : max 1 (s.reverse.length - (NUMBER_TO_WIN - 1)) = 1 := by
      simp only [NUMBER_TO_WIN, List.length_reverse]; omega
    rw [h1, h1r]
    have hr1 : List.range 1 = [0] := rfl
    rw [hr1]
    simp only [List.map_cons, List.map_nil, Function.comp, List.drop_zero]
    rw [List.take_of_length_le (by simp only [NUMBER_TO_WIN, List.length_reverse]; omega),
      List.take_of_length_le (by simp only [NUMBER_TO_WIN]; omega),
      score_window_reverse]
  · have hn : max 1 (s.reverse.length - (NUMBER_TO_WIN - 1)) = s.length - 3 := by
      simp only [NUMBER_TO_WIN, List.length_reverse]; omega
    have hn2 : max 1 (s.length - (NUMBER_TO_WIN - 1)) = s.length - 3 := by
      simp only [NUMBER_TO_WIN]; omega
    rw [hn, hn2]
    have hmaps : (List.range (s.length - 3)).map
          (score_window ∘ fun i => (s.reverse.drop i).take NUMBER_TO_WIN) =
        (List.range (s.length - 3)).map
          (fun i => (score_window ∘ fun j => (s.drop j).take NUMBER_TO_WIN) (s.length - 3 - 1 - i)) := by
      apply List.map_congr_left
      intro i hi
      rw [List.mem_range] at hi
      simp only [Function.comp, NUMBER_TO_WIN]
      rw [window_reverse_eq s i (by omega), score_window_reverse]
      have harith : s.length - 4 - i = s.length - 3 - 1 - i := by omega
      rw [harith]
    rw [hmaps,
      map_range_flipidx (s.length - 3) (score_window ∘ fun j => (s.drop j).take NUMBER_TO_WIN)]
    rw [List.sum_eq_foldl.symm, List.sum_eq_foldl.symm, List.sum_reverse]

theorem score_by_closeness_flip (b : Board) (hwf : b.WF) :
    score_by_closeness_to_win b.flip = score_by_closeness_to_win b := by
  unfold score_by_closeness_to_win
  rw [horizontal_strips_flip b hwf, vertical_strips_flip b hwf,
    upward_strips_flip b hwf, downward_strips_flip b hwf]
  rw [List.map_map]
  have hh : (horizontal_strips b).map (score_circle_buffer ∘ List.reverse) =
      (horizontal_strips b).map score_circle_buffer := by
    apply List.map_congr_left
    intro s _
    simp only [Function.comp]
    exact score_circle_buffer_reverse s
  rw [hh, List.map_reverse]
  simp only [← List.sum_eq_foldl]
  rw [List.sum_reverse]
  ring

/-- C9: mirroring a board with flip() leaves the win status of each color
and the heuristic score unchanged. -/
theorem C9_flip_win_and_heuristic (b : Board) (hwf : b.WF) :
    (∀ color, has_color_won b.flip color = has_color_won b color) ∧
    score_by_closeness_to_win b.flip = score_by_closeness_to_win b :=
  ⟨fun color => has_color_won_flip b hwf color, score_by_closeness_flip b hwf⟩

/-- Witness for C9 at a concrete input: a board with a single piece in
column 0. -/
theorem C9_flip_win_and_heuristic_witness :
    (Board.mk [1,0,0,0,0,0,0] [1,0,0,0,0,0,0]).WF ∧
    has_color_won (Board.mk [1,0,0,0,0,0,0] [1,0,0,0,0,0,0]).flip true =
      has_color_won (Board.mk [1,0,0,0,0,0,0] [1,0,0,0,0,0,0]) true ∧
    score_by_closeness_to_win (Board.mk [1,0,0,0,0,0,0] [1,0,0,0,0,0,0]).flip =
      score_by_closeness_to_win (Board.mk [1,0,0,0,0,0,0] [1,0,0,0,0,0,0]) :=
  ⟨by decide,
   (C9_flip_win_and_heuristic (Board.mk [1,0,0,0,0,0,0] [1,0,0,0,0,0,0]) (by decide)).1 true,
   (C9_flip_win_and_heuristic (Board.mk [1,0,0,0,0,0,0] [1,0,0,0,0,0,0]) (by decide)).2⟩

/-- win_check.rs (earlier in-repo revision): has_horizontal_win — scans
every row below highest_row across all columns. -/
def has_horizontal_win (b : Board) (highest_row : Nat) (color : Bool) : Bool :=
  (List.range highest_row).any fun row =>
    scan_no_break color 0 ((List.range BOARD_WIDTH).map fun col => b.get_piece col row)

/-- win_check.rs (earlier in-repo revision): has_vertical_win — scans each
column bottom-up with the remaining-rows early break. -/
def has_vertical_win (b : Board) (highest_row : Nat) (color : Bool) : Bool :=
  (List.range BOARD_WIDTH).any fun col =>
    check_strip color 0 ((List.range highest_row).map fun row => b.get_piece col row)

/-- win_check.rs (earlier in-repo revision): has_upward_diagonal_win — the
diagonals off the bottom row (i in 1..=highest_row-4) and the diagonals
starting on the bottom row (i in 0..=BOARD_WIDTH-4). -/
def has_upward_diagonal_win (b : Board) (highest_row : Nat) (color : Bool) : Bool :=
  (((List.range (highest_row - NUMBER_TO_WIN)).map (· + 1)).any fun i =>
    scan_no_break color 0 ((List.range (min BOARD_WIDTH (highest_row - i))).map
      fun k => b.get_piece k (i + k))) ||
  ((List.range (BOARD_WIDTH - NUMBER_TO_WIN + 1)).any fun i =>
    scan_no_break color 0 ((List.range (min (BOARD_WIDTH - i) highest_row)).map
      fun k => b.get_piece (i + k) k))

/-- win_check.rs (earlier in-repo revision): has_downward_diagonal_win —
the mirrored diagonal families, read with descending column. -/
def has_downward_diagonal_win (b : Board) (highest_row : Nat) (color : Bool) : Bool :=
  (((List.range (highest_row - NUMBER_TO_WIN)).map (· + 1)).any fun i =>
    scan_no_break color 0 ((List.range (min BOARD_WIDTH (highest_row - i))).map
      fun k => b.get_piece (BOARD_WIDTH - 1 - k) (i + k))) ||
  ((List.range (BOARD_WIDTH - NUMBER_TO_WIN + 1)).any fun i =>
    scan_no_break color 0 ((List.range (min (BOARD_WIDTH - i) highest_row)).map
      fun k => b.get_piece (BOARD_WIDTH - i - 1 - k) k))

/-- win_check.rs (earlier in-repo revision): does_color_win — horizontal
first, the other directions only once the board is NUMBER_TO_WIN rows
high; each check short-circuits. -/
def does_color_win (b : Board) (color : Bool) : Bool :=
  if has_horizontal_win b b.get_max_height color then true
  else if NUMBER_TO_WIN ≤ b.get_max_height then
    has_vertical_win b b.get_max_height color ||
    has_upward_diagonal_win b b.get_max_height color ||
    has_downward_diagonal_win b b.get_max_height color
  else false

example : does_color_win ⟨[4,4,0,0,0,0,0], [0,15,0,0,0,0,0]⟩ false = true := by decide

example : does_color_win ⟨[4,4,0,0,0,0,0], [0,15,0,0,0,0,0]⟩ true = true := by decide

/-- All column heights at most BOARD_HEIGHT — true of every board the
program constructs. -/
def Board.HeightsOK (b : Board) : Prop :=
  ∀ col, b.get_height col ≤ BOARD_HEIGHT

theorem heights_ok_iff (b : Board) :
    b.HeightsOK ↔ ∀ col < b.column_heights.length, b.get_height col ≤ BOARD_HEIGHT := by
  constructor
  · intro h col _; exact h col
  · intro h col
    rcases Nat.lt_or_ge col b.column_heights.length with hc | hc
    · exact h col hc
    · unfold Board.get_height
      rw [List.getD_eq_default _ _ hc]
      omega

instance (b : Board) : Decidable b.HeightsOK :=
  decidable_of_iff _ (heights_ok_iff b).symm

/-- The clean window semantics of a win: four consecutive cells of one
color in one of the four directions. -/
def exists_win (b : Board) (color : Bool) : Prop :=
  (∃ x < BOARD_WIDTH, ∃ y < BOARD_HEIGHT, ∀ k < NUMBER_TO_WIN, b.get_piece (x + k) y = some color) ∨
  (∃ x < BOARD_WIDTH, ∃ y < BOARD_HEIGHT, ∀ k < NUMBER_TO_WIN, b.get_piece x (y + k) = some color) ∨
  (∃ x < BOARD_WIDTH, ∃ y < BOARD_HEIGHT, ∀ k < NUMBER_TO_WIN, b.get_piece (x + k) (y + k) = some color) ∨
  (∃ x < BOARD_WIDTH, ∃ y < BOARD_HEIGHT, ∀ k < NUMBER_TO_WIN, b.get_piece (x + k) (y + 3 - k) = some color)

instance (b : Board) (color : Bool) : Decidable (exists_win b color) := by
  unfold exists_win; infer_instance

theorem le_foldl_max (l : List Nat) : ∀ (a : Nat) (x : Nat), x ∈ l → x ≤ l.foldl Nat.max a := by
  induction l with
  | nil => intro a x hx; cases hx
  | cons h t ih =>
    intro a x hx
    rcases List.mem_cons.mp hx with rfl | hx'
    · have : x ≤ Nat.max a x := Nat.le_max_right a x
      calc x ≤ Nat.max a x := this
        _ ≤ t.foldl Nat.max (Nat.max a x) := by
            have := foldl_max_eq_max_foldr t (Nat.max a x)
            rw [this]; exact Nat.le_max_left _ _
    · exact ih (Nat.max a h) x hx'

theorem foldl_max_le (l : List Nat) : ∀ (a m : Nat), a ≤ m → (∀ x ∈ l, x ≤ m) →
    l.foldl Nat.max a ≤ m := by
  induction l with
  | nil => intro a m ha _; exact ha
  | cons h t ih =>
    intro a m ha hall
    apply ih
    · exact Nat.max_le.mpr ⟨ha, hall h (List.mem_cons_self h t)⟩
    · intro x hx; exact hall x (List.mem_cons_of_mem h hx)

theorem get_height_le_max (b : Board) (x : Nat) (hx : x < BOARD_WIDTH) :
    b.get_height x ≤ b.get_max_height := by
  unfold Board.get_max_height
  apply le_foldl_max
  exact List.mem_map_of_mem _ (List.mem_range.mpr hx)

theorem get_max_height_le (b : Board) (hho : b.HeightsOK) :
    b.get_max_height ≤ BOARD_HEIGHT := by
  unfold Board.get_max_height
  apply foldl_max_le
  · omega
  · intro x hx
    rw [List.mem_map] at hx
    obtain ⟨col, _, rfl⟩ := hx
    exact hho col

theorem get_piece_some (b : Board) (hwf : b.WF) (x y : Nat) (v : Bool)
    (h : b.get_piece x y = some v) : x < BOARD_WIDTH ∧ y < b.get_height x := by
  unfold Board.get_piece at h
  by_cases hy : y < b.get_height x
  · refine ⟨?_, hy⟩
    by_contra hx
    push_neg at hx
    unfold Board.get_height at hy
    rw [List.getD_eq_default _ _ (by rw [hwf.1]; exact hx)] at hy
    omega
  · rw [if_neg hy] at h; cases h

theorem has_horizontal_win_iff (b : Board) (hwf : b.WF) (hho : b.HeightsOK) (color : Bool) :
    has_horizontal_win b b.get_max_height color = true ↔
      (∃ x < BOARD_WIDTH, ∃ y < BOARD_HEIGHT, ∀ k < NUMBER_TO_WIN,
        b.get_piece (x + k) y = some color) := by
  unfold has_horizontal_win
  rw [List.any_eq_true]
  constructor
  · rintro ⟨row, hrow, hscan⟩
    rw [List.mem_range] at hrow
    rw [scan_no_break_zero_iff, has_run_map_range] at hscan
    obtain ⟨i, hi, hall⟩ := hscan
    have hy6 : row < BOARD_HEIGHT := by
      have h0 := hall 0 (by omega)
      have := (get_piece_some b hwf _ _ _ h0).2
      have := hho (i + 0)
      omega
    exact ⟨i, by omega, row, hy6, fun k hk => hall k (by simpa [NUMBER_TO_WIN] using hk)⟩
  · rintro ⟨x, hx, y, hy, hall⟩
    have h0 := hall 0 (by simp [NUMBER_TO_WIN])
    have hb := get_piece_some b hwf _ _ _ h0
    have hymax : y < b.get_max_height := by
      have := get_height_le_max b (x + 0) hb.1
      omega
    refine ⟨y, List.mem_range.mpr hymax, ?_⟩
    rw [scan_no_break_zero_iff, has_run_map_range]
    have h3 := hall 3 (by simp [NUMBER_TO_WIN])
    have hb3 := get_piece_some b hwf _ _ _ h3
    exact ⟨x, by simp only [BOARD_WIDTH] at hb3 ⊢; omega,
      fun k hk => hall k (by simpa [NUMBER_TO_WIN] using hk)⟩

theorem has_vertical_win_iff (b : Board) (hwf : b.WF) (hho : b.HeightsOK) (color : Bool) :
    has_vertical_win b b.get_max_height color = true ↔
      (∃ x < BOARD_WIDTH, ∃ y < BOARD_HEIGHT, ∀ k < NUMBER_TO_WIN,
        b.get_piece x (y + k) = some color) := by
  unfold has_vertical_win
  rw [List.any_eq_true]
  constructor
  · rintro ⟨col, hcol, hscan⟩
    rw [List.mem_range] at hcol
    rw [check_strip_zero_iff, has_run_map_range] at hscan
    obtain ⟨i, hi, hall⟩ := hscan
    have hy6 : i < BOARD_HEIGHT := by
      have := get_max_height_le b hho
      omega
    exact ⟨col, hcol, i, hy6, fun k hk => hall k (by simpa [NUMBER_TO_WIN] using hk)⟩
  · rintro ⟨x, hx, y, hy, hall⟩
    refine ⟨x, List.mem_range.mpr hx, ?_⟩
    rw [check_strip_zero_iff, has_run_map_range]
    have h3 := hall 3 (by simp [NUMBER_TO_WIN])
    have hb3 := get_piece_some b hwf _ _ _ h3
    have hmax : y + 3 < b.get_max_height := by
      have := get_height_le_max b x hx
      omega
    exact ⟨y, by omega, fun k hk => hall k (by simpa [NUMBER_TO_WIN] using hk)⟩

theorem vertical_win_imp_four (b : Board) (hwf : b.WF) (color : Bool)
    (h : ∃ x < BOARD_WIDTH, ∃ y < BOARD_HEIGHT, ∀ k < NUMBER_TO_WIN,
      b.get_piece x (y + k) = some color) :
    NUMBER_TO_WIN ≤ b.get_max_height := by
  obtain ⟨x, hx, y, hy, hall⟩ := h
  have h3 := hall 3 (by simp [NUMBER_TO_WIN])
  have hb3 := get_piece_some b hwf _ _ _ h3
  have := get_height_le_max b x hx
  simp only [NUMBER_TO_WIN]
  omega

theorem get_piece_congr (b : Board) {x x' y y' : Nat} (hx : x = x') (hy : y = y') :
    b.get_piece x y = b.get_piece x' y' := by rw [hx, hy]

theorem has_upward_diagonal_win_iff (b : Board) (hwf : b.WF) (hho : b.HeightsOK) (color : Bool) :
    has_upward_diagonal_win b b.get_max_height color = true ↔
      (∃ x < BOARD_WIDTH, ∃ y < BOARD_HEIGHT, ∀ k < NUMBER_TO_WIN,
        b.get_piece (x + k) (y + k) = some color) := by
  have hr6 : b.get_max_height ≤ 6 := get_max_height_le b hho
  have hbw : BOARD_WIDTH = 7 := rfl
  have hbh : BOARD_HEIGHT = 6 := rfl
  have hnw : NUMBER_TO_WIN = 4 := rfl
  unfold has_upward_diagonal_win
  rw [Bool.or_eq_true, List.any_eq_true, List.any_eq_true]
  constructor
  · rintro (⟨i, hmem, hscan⟩ | ⟨i, hmem, hscan⟩)
    · rw [List.mem_map] at hmem
      obtain ⟨i', hi', rfl⟩ := hmem
      rw [List.mem_range] at hi'
      rw [scan_no_break_zero_iff, has_run_map_range] at hscan
      obtain ⟨j, hj, hall⟩ := hscan
      simp only [BOARD_WIDTH, NUMBER_TO_WIN] at hj hi' ⊢
      refine ⟨j, by omega, i' + 1 + j, by omega, fun k hk => ?_⟩
      exact (get_piece_congr b (by omega) (by omega)).trans (hall k (by omega))
    · rw [List.mem_range] at hmem
      rw [scan_no_break_zero_iff, has_run_map_range] at hscan
      obtain ⟨j, hj, hall⟩ := hscan
      simp only [BOARD_WIDTH, NUMBER_TO_WIN] at hj hmem ⊢
      refine ⟨i + j, by omega, j, by omega, fun k hk => ?_⟩
      exact (get_piece_congr b (by omega) (by omega)).trans (hall k (by omega))
  · rintro ⟨x, hx, y, hy, hall⟩
    have h3 := hall 3 (by simp [NUMBER_TO_WIN])
    have hb3 := get_piece_some b hwf _ _ _ h3
    have hhr : y + 3 < b.get_max_height := by
      have := get_height_le_max b (x + 3) hb3.1
      omega
    simp only [BOARD_WIDTH, NUMBER_TO_WIN] at hb3 hx hy ⊢
    by_cases hxy : x < y
    · left
      refine ⟨y - x, List.mem_map.mpr ⟨y - x - 1, List.mem_range.mpr (by omega), by omega⟩, ?_⟩
      rw [scan_no_break_zero_iff, has_run_map_range]
      refine ⟨x, by omega, fun k hk => ?_⟩
      exact (get_piece_congr b (by omega) (by omega)).trans (hall k (by omega))
    · right
      refine ⟨x - y, List.mem_range.mpr (by omega), ?_⟩
      rw [scan_no_break_zero_iff, has_run_map_range]
      refine ⟨y, by omega, fun k hk => ?_⟩
      exact (get_piece_congr b (by omega) (by omega)).trans (hall k (by omega))

theorem has_downward_diagonal_win_iff (b : Board) (hwf : b.WF) (hho : b.HeightsOK) (color : Bool) :
    has_downward_diagonal_win b b.get_max_height color = true ↔
      (∃ x < BOARD_WIDTH, ∃ y < BOARD_HEIGHT, ∀ k < NUMBER_TO_WIN,
        b.get_piece (x + k) (y + 3 - k) = some color) := by
  have hr6 : b.get_max_height ≤ 6 := get_max_height_le b hho
  have hbw : BOARD_WIDTH = 7 := rfl
  have hbh : BOARD_HEIGHT = 6 := rfl
  have hnw : NUMBER_TO_WIN = 4 := rfl
  unfold has_downward_diagonal_win
  rw [Bool.or_eq_true, List.any_eq_true, List.any_eq_true]
  constructor
  · rintro (⟨i, hmem, hscan⟩ | ⟨i, hmem, hscan⟩)
    · rw [List.mem_map] at hmem
      obtain ⟨i', hi', rfl⟩ := hmem
      rw [List.mem_range] at hi'
      rw [scan_no_break_zero_iff, has_run_map_range] at hscan
      obtain ⟨j, hj, hall⟩ := hscan
      simp only [BOARD_WIDTH, NUMBER_TO_WIN] at hj hi' ⊢
      refine ⟨3 - j, by omega, i' + 1 + j, by omega, fun k hk => ?_⟩
      exact (get_piece_congr b (by omega) (by omega)).trans (hall (3 - k) (by omega))
    · rw [List.mem_range] at hmem
      rw [scan_no_break_zero_iff, has_run_map_range] at hscan
      obtain ⟨j, hj, hall⟩ := hscan
      simp only [BOARD_WIDTH, NUMBER_TO_WIN] at hj hmem ⊢
      refine ⟨3 - i - j, by omega, j, by omega, fun k hk => ?_⟩
      exact (get_piece_congr b (by omega) (by omega)).trans (hall (3 - k) (by omega))
  · rintro ⟨x, hx, y, hy, hall⟩
    have h0 := hall 0 (by simp [NUMBER_TO_WIN])
    have h3 := hall 3 (by simp [NUMBER_TO_WIN])
    have hb0 := get_piece_some b hwf _ _ _ h0
    have hb3 := get_piece_some b hwf _ _ _ h3
    have hhr : y + 3 < b.get_max_height := by
      have := get_height_le_max b (x + 0) hb0.1
      simp only [NUMBER_TO_WIN] at hb0
      omega
    simp only [BOARD_WIDTH, NUMBER_TO_WIN] at hb0 hb3 hx hy ⊢
    by_cases hxy : 4 ≤ x + y
    · left
      refine ⟨x + y - 3, List.mem_map.mpr ⟨x + y - 4, List.mem_range.mpr (by omega), by omega⟩, ?_⟩
      rw [scan_no_break_zero_iff, has_run_map_range]
      refine ⟨3 - x, by omega, fun k hk => ?_⟩
      exact (get_piece_congr b (by omega) (by omega)).trans (hall (3 - k) (by omega))
    · right
      refine ⟨3 - x - y, List.mem_range.mpr (by omega), ?_⟩
      rw [scan_no_break_zero_iff, has_run_map_range]
      refine ⟨y, by omega, fun k hk => ?_⟩
      exact (get_piece_congr b (by omega) (by omega)).trans (hall (3 - k) (by omega))

theorem upward_win_imp_four (b : Board) (hwf : b.WF) (color : Bool)
    (h : ∃ x < BOARD_WIDTH, ∃ y < BOARD_HEIGHT, ∀ k < NUMBER_TO_WIN,
      b.get_piece (x + k) (y + k) = some color) :
    NUMBER_TO_WIN ≤ b.get_max_height := by
  obtain ⟨x, hx, y, hy, hall⟩ := h
  have h3 := hall 3 (by simp [NUMBER_TO_WIN])
  have hb3 := get_piece_some b hwf _ _ _ h3
  have := get_height_le_max b (x + 3) hb3.1
  simp only [NUMBER_TO_WIN]
  omega

theorem downward_win_imp_four (b : Board) (hwf : b.WF) (color : Bool)
    (h : ∃ x < BOARD_WIDTH, ∃ y < BOARD_HEIGHT, ∀ k < NUMBER_TO_WIN,
      b.get_piece (x + k) (y + 3 - k) = some color) :
    NUMBER_TO_WIN ≤ b.get_max_height := by
  obtain ⟨x, hx, y, hy, hall⟩ := h
  have h0 := hall 0 (by simp [NUMBER_TO_WIN])
  have hb0 := get_piece_some b hwf _ _ _ h0
  have := get_height_le_max b (x + 0) hb0.1
  simp only [NUMBER_TO_WIN]
  omega

theorem does_color_win_iff (b : Board) (hwf : b.WF) (hho : b.HeightsOK) (color : Bool) :
    does_color_win b color = true ↔ exists_win b color := by
  unfold does_color_win exists_win
  by_cases hh : has_horizontal_win b b.get_max_height color = true
  · rw [if_pos hh]
    constructor
    · intro _
      exact Or.inl ((has_horizontal_win_iff b hwf hho color).mp hh)
    · intro _; rfl
  · rw [if_neg hh]
    by_cases h4 : NUMBER_TO_WIN ≤ b.get_max_height
    · rw [if_pos h4]
      rw [Bool.or_eq_true, Bool.or_eq_true]
      constructor
      · rintro ((hv | hu) | hd)
        · exact Or.inr (Or.inl ((has_vertical_win_iff b hwf hho color).mp hv))
        · exact Or.inr (Or.inr (Or.inl ((has_upward_diagonal_win_iff b hwf hho color).mp hu)))
        · exact Or.inr (Or.inr (Or.inr ((has_downward_diagonal_win_iff b hwf hho color).mp hd)))
      · rintro (hx | hv | hu | hd)
        · exact absurd ((has_horizontal_win_iff b hwf hho color).mpr hx) hh
        · exact Or.inl (Or.inl ((has_vertical_win_iff b hwf hho color).mpr hv))
        · exact Or.inl (Or.inr ((has_upward_diagonal_win_iff b hwf hho color).mpr hu))
        · exact Or.inr ((has_downward_diagonal_win_iff b hwf hho color).mpr hd)
    · rw [if_neg h4]
      constructor
      · intro h; cases h
      · rintro (hx | hv | hu | hd)
        · exact absurd ((has_horizontal_win_iff b hwf hho color).mpr hx) hh
        · exact absurd (vertical_win_imp_four b hwf color hv) h4
        · exact absurd (upward_win_imp_four b hwf color hu) h4
        · exact absurd (downward_win_imp_four b hwf color hd) h4

section DropPreservation

theorem drop_piece_succ_iff (b : Board) (col : Nat) (color : Bool) :
    (b.drop_piece col color).2 = true ↔ b.get_height col < BOARD_HEIGHT := by
  unfold Board.drop_piece
  by_cases h : b.get_height col < BOARD_HEIGHT
  · rw [if_pos h]; simpa using h
  · rw [if_neg h]; simpa using h

theorem drop_piece_wf (b : Board) (col : Nat) (color : Bool) (hwf : b.WF) :
    (b.drop_piece col color).1.WF := by
  unfold Board.drop_piece
  by_cases h : b.get_height col < BOARD_HEIGHT
  · rw [if_pos h]
    exact ⟨by simpa using hwf.1, by simpa using hwf.2⟩
  · rw [if_neg h]; exact hwf

theorem drop_piece_height (b : Board) (col : Nat) (color : Bool) (hwf : b.WF)
    (hsucc : (b.drop_piece col color).2 = true) (c : Nat) :
    (b.drop_piece col color).1.get_height c =
      if c = col ∧ col < BOARD_WIDTH then b.get_height col + 1 else b.get_height c := by
  have h := (drop_piece_succ_iff b col color).mp hsucc
  unfold Board.drop_piece
  rw [if_pos h]
  show (b.column_heights.set col (b.get_height col + 1)).getD c 0 = _
  by_cases hc : c = col ∧ col < BOARD_WIDTH
  · rw [if_pos hc, hc.1]
    exact getD_set_self _ _ _ (by rw [hwf.1]; exact hc.2)
  · rw [if_neg hc]
    by_cases hceq : c = col
    · subst hceq
      have hge : BOARD_WIDTH ≤ c := by
        by_contra hlt
        exact hc ⟨rfl, by omega⟩
      rw [List.getD_eq_default _ _ (by rw [List.length_set, hwf.1]; exact hge)]
      show _ = b.column_heights.getD c 0
      rw [List.getD_eq_default _ _ (by rw [hwf.1]; exact hge)]
    · exact getD_set_other _ _ _ _ hceq

theorem drop_piece_heights_ok (b : Board) (col : Nat) (color : Bool) (hwf : b.WF)
    (hho : b.HeightsOK) : (b.drop_piece col color).1.HeightsOK := by
  by_cases hsucc : (b.drop_piece col color).2 = true
  · intro c
    rw [drop_piece_height b col color hwf hsucc c]
    by_cases hc : c = col ∧ col < BOARD_WIDTH
    · rw [if_pos hc]
      have := (drop_piece_succ_iff b col color).mp hsucc
      omega
    · rw [if_neg hc]; exact hho c
  · unfold Board.drop_piece at *
    by_cases h : b.get_height col < BOARD_HEIGHT
    · rw [if_pos h] at hsucc; simp at hsucc
    · rw [if_neg h]; exact hho

theorem drop_piece_canonical (b : Board) (col : Nat) (color : Bool) (hwf : b.WF)
    (hcan : b.Canonical) : (b.drop_piece col color).1.Canonical := by
  unfold Board.drop_piece
  by_cases h : b.get_height col < BOARD_HEIGHT
  · rw [if_pos h]
    intro c
    show (b.column_bitmaps.set col _).getD c 0 < 2 ^ (Board.get_height _ c)
    have hh : Board.get_height
        { column_heights := b.column_heights.set col (b.get_height col + 1),
          column_bitmaps := b.column_bitmaps.set col
            (b.column_bitmaps.getD col 0 + (cond color 1 0) * 2 ^ b.get_height col) } c =
        (b.column_heights.set col (b.get_height col + 1)).getD c 0 := rfl
    rw [hh]
    by_cases hceq : c = col
    · subst hceq
      by_cases hlt : c < b.column_bitmaps.length
      · rw [getD_set_self _ _ _ hlt,
          getD_set_self _ _ _ (by rw [hwf.1, ← hwf.2]; exact hlt)]
        have hcc := hcan c
        have hle : (cond color 1 0) * 2 ^ b.get_height c ≤ 2 ^ b.get_height c := by
          cases color <;> simp
        calc b.column_bitmaps.getD c 0 + (cond color 1 0) * 2 ^ b.get_height c
            < 2 ^ b.get_height c + 2 ^ b.get_height c := by omega
          _ = 2 ^ (b.get_height c + 1) := by rw [Nat.pow_succ]; omega
      · push_neg at hlt
        rw [List.getD_eq_default _ _ (by rw [List.length_set]; exact hlt)]
        exact Nat.pos_pow_of_pos _ (by norm_num)
    · rw [getD_set_other _ _ _ _ hceq, getD_set_other _ _ _ _ hceq]
      exact hcan c
  · rw [if_neg h]; exact hcan

theorem drop_piece_cell_transfer (b : Board) (col : Nat) (color : Bool)
    (hwf : b.WF) (hcan : b.Canonical) (hcol : col < BOARD_WIDTH)
    (hsucc : (b.drop_piece col color).2 = true) (c r : Nat) (v : Bool) (hv : v ≠ color)
    (h : (b.drop_piece col color).1.get_piece c r = some v) :
    b.get_piece c r = some v := by
  have hh := (drop_piece_succ_iff b col color).mp hsucc
  have hlen : col < b.column_heights.length := by rw [hwf.1]; exact hcol
  have hlenb : col < b.column_bitmaps.length := by rw [hwf.2]; exact hcol
  unfold Board.drop_piece at h
  rw [if_pos hh] at h
  unfold Board.get_piece Board.get_height at h ⊢
  by_cases hceq : c = col
  · subst hceq
    rw [getD_set_self _ _ _ hlen, getD_set_self _ _ _ hlenb] at h
    by_cases hr : r < b.column_heights.getD c 0
    · rw [if_pos (by omega)] at h
      rw [if_pos hr]
      rw [testBit_add_pow_lower _ _ _ _ hr] at h
      exact h
    · by_cases hr2 : r < b.column_heights.getD c 0 + 1
      · rw [if_pos hr2] at h
        have hreq : r = b.column_heights.getD c 0 := by omega
        subst hreq
        have hcan' : b.column_bitmaps.getD c 0 < 2 ^ b.column_heights.getD c 0 := hcan c
        rw [testBit_add_pow_top _ _ _ hcan'] at h
        exact absurd (Option.some.inj h).symm hv
      · rw [if_neg hr2] at h; cases h
  · rw [getD_set_other _ _ _ _ hceq, getD_set_other _ _ _ _ hceq] at h
    exact h

theorem exists_win_drop (b : Board) (col : Nat) (color op : Bool)
    (hwf : b.WF) (hcan : b.Canonical) (hcol : col < BOARD_WIDTH) (hop : op ≠ color)
    (hsucc : (b.drop_piece col color).2 = true)
    (h : exists_win (b.drop_piece col color).1 op) : exists_win b op := by
  unfold exists_win at h ⊢
  rcases h with ⟨x, hx, y, hy, hall⟩ | ⟨x, hx, y, hy, hall⟩ | ⟨x, hx, y, hy, hall⟩ | ⟨x, hx, y, hy, hall⟩
  · exact Or.inl ⟨x, hx, y, hy, fun k hk =>
      drop_piece_cell_transfer b col color hwf hcan hcol hsucc _ _ op hop (hall k hk)⟩
  · exact Or.inr (Or.inl ⟨x, hx, y, hy, fun k hk =>
      drop_piece_cell_transfer b col color hwf hcan hcol hsucc _ _ op hop (hall k hk)⟩)
  · exact Or.inr (Or.inr (Or.inl ⟨x, hx, y, hy, fun k hk =>
      drop_piece_cell_transfer b col color hwf hcan hcol hsucc _ _ op hop (hall k hk)⟩))
  · exact Or.inr (Or.inr (Or.inr ⟨x, hx, y, hy, fun k hk =>
      drop_piece_cell_transfer b col color hwf hcan hcol hsucc _ _ op hop (hall k hk)⟩))

end DropPreservation

/-- Alternating play from the empty board: each entry of the list is a
column, pieces alternate starting with player false; none when a drop is
illegal. -/
def play_moves : List Nat → Board → Bool → Option Board
  | [], b, _ => some b
  | c :: rest, b, t =>
      if c < BOARD_WIDTH ∧ (b.drop_piece c t).2 = true then
        play_moves rest (b.drop_piece c t).1 (!t)
      else none

/-- Alternating legal play that stops at a win: each drop requires a legal
column, that neither color has already won, and a non-full column. -/
def play_stop : List Nat → Board → Bool → Option (Board × Bool)
  | [], b, t => some (b, t)
  | c :: rest, b, t =>
      if c < BOARD_WIDTH ∧ does_color_win b false = false ∧ does_color_win b true = false ∧
          (b.drop_piece c t).2 = true then
        play_stop rest (b.drop_piece c t).1 (!t)
      else none

/-- A board reachable from the empty board by alternating legal drops
where play stops at a win. -/
def ReachableStop (b : Board) (t : Bool) : Prop :=
  ∃ moves, play_stop moves Board.default false = some (b, t)

theorem play_stop_preserves :
    ∀ (moves : List Nat) (b : Board) (t : Bool) (b' : Board) (t' : Bool),
      b.WF → b.HeightsOK → b.Canonical →
      ¬(does_color_win b true = true ∧ does_color_win b false = true) →
      play_stop moves b t = some (b', t') →
      b'.WF ∧ b'.HeightsOK ∧ b'.Canonical ∧
        ¬(does_color_win b' true = true ∧ does_color_win b' false = true) := by
  intro moves
  induction moves with
  | nil =>
    intro b t b' t' hwf hho hcan hnb hplay
    unfold play_stop at hplay
    obtain ⟨rfl, rfl⟩ : b = b' ∧ t = t' := by
      constructor <;> [exact congrArg Prod.fst (Option.some.inj hplay);
        exact congrArg Prod.snd (Option.some.inj hplay)]
    exact ⟨hwf, hho, hcan, hnb⟩
  | cons c rest ih =>
    intro b t b' t' hwf hho hcan hnb hplay
    unfold play_stop at hplay
    by_cases hcond : c < BOARD_WIDTH ∧ does_color_win b false = false ∧
        does_color_win b true = false ∧ (b.drop_piece c t).2 = true
    · rw [if_pos hcond] at hplay
      obtain ⟨hcol, hnf, hnt, hsucc⟩ := hcond
      have hwf1 := drop_piece_wf b c t hwf
      have hho1 := drop_piece_heights_ok b c t hwf hho
      have hcan1 := drop_piece_canonical b c t hwf hcan
      have hnb1 : ¬(does_color_win (b.drop_piece c t).1 true = true ∧
          does_color_win (b.drop_piece c t).1 false = true) := by
        rintro ⟨htrue, hfalse⟩
        have hwin' : does_color_win (b.drop_piece c t).1 (!t) = true := by
          cases t
          · simpa using htrue
          · simpa using hfalse
        have hex' := (does_color_win_iff _ hwf1 hho1 (!t)).mp hwin'
        have hex := exists_win_drop b c t (!t) hwf hcan hcol
          (by cases t <;> simp) hsucc hex'
        have hwin := (does_color_win_iff b hwf hho (!t)).mpr hex
        cases t
        · simp only [Bool.not_false] at hwin
          rw [hwin] at hnt; cases hnt
        · simp only [Bool.not_true] at hwin
          rw [hwin] at hnf; cases hnf
      exact ih _ _ _ _ hwf1 hho1 hcan1 hnb1 hplay
    · rw [if_neg hcond] at hplay
      cases hplay

/-- C6 counterexample: the board reached by the alternating legal drops
0,1,0,1,0,1,0,1 (four pieces of each color stacked in columns 0 and 1) is
reachable from the empty board by alternating legal drops, yet
does_color_win holds for both colors on it (play continued after player
one had already completed a vertical four). -/
theorem C6_counterexample_both_colors_win :
    play_moves [0,1,0,1,0,1,0,1] Board.default false =
      some (Board.mk [4,4,0,0,0,0,0] [0,15,0,0,0,0,0]) ∧
    does_color_win (Board.mk [4,4,0,0,0,0,0] [0,15,0,0,0,0,0]) true = true ∧
    does_color_win (Board.mk [4,4,0,0,0,0,0] [0,15,0,0,0,0,0]) false = true :=
  ⟨by decide, by decide, by decide⟩

/-- C6 (amended): for every board reachable from the empty board by
alternating legal drops in which play stops at a win — no drop is made
from a position where either color has already won, which is how the
engine plays since terminal nodes are never expanded — does_color_win
never holds for both colors at once. -/
theorem C6_no_double_win (b : Board) (t : Bool) (h : ReachableStop b t) :
    ¬(does_color_win b true = true ∧ does_color_win b false = true) := by
  obtain ⟨moves, hplay⟩ := h
  exact (play_stop_preserves moves Board.default false b t
    (by decide) (by decide) (by decide) (by decide) hplay).2.2.2

/-- Witness for the amended C6 at a concrete input: the empty board. -/
theorem C6_no_double_win_witness :
    ¬(does_color_win Board.default true = true ∧ does_color_win Board.default false = true) :=
  C6_no_double_win Board.default false ⟨[], rfl⟩

/-- board_state.rs: whether the game is over and who won. -/
inductive GameOver where
  | NoWin
  | Tie
  | OneWins
  | TwoWins
deriving DecidableEq, Repr

/-- The outcome computed at BoardState construction, mirroring the earlier
in-repo revision board_state.rs BoardState::new (the game_engine revision
calls a win_check::is_game_over with the same meaning): only the player
who just moved (!turn) is checked for a win, then a full board is a tie. -/
def is_game_over (board : Board) (turn : Bool) : GameOver :=
  if has_color_won board (!turn) then
    match !turn with
    | false => GameOver.OneWins
    | true => GameOver.TwoWins
  else if board.is_full then GameOver.Tie
  else GameOver.NoWin

/-- monte_carlo.rs: RolloutResults — success is 2 * wins + ties, total is
2 * rollouts. -/
structure RolloutResults where
  success : Nat
  total : Nat
deriving DecidableEq, Repr

/-- board_state.rs: a child edge — the Rc handle is modelled as an index
into the arena of live BoardStates. -/
structure ChildState where
  state : Nat
  last_move : Nat
  is_flipped : Bool
deriving DecidableEq, Repr

/-- board_state.rs: ChildState::parent_flipped. -/
def ChildState.parent_flipped (c : ChildState) : ChildState :=
  { c with last_move := 6 - c.last_move, is_flipped := !c.is_flipped }

/-- board_state.rs: BoardState. -/
structure BoardState where
  board : Board
  children : List ChildState
  rollout_results : RolloutResults
  turn : Bool
  game_over : GameOver
deriving DecidableEq, Repr

/-- board_state.rs: BoardState::new. -/
def BoardState.new (board : Board) (turn : Bool) : BoardState :=
  { board := board, children := [], rollout_results := ⟨0, 0⟩,
    turn := turn, game_over := is_game_over board turn }

def BoardState.get_turn (s : BoardState) : Bool := s.turn

def BoardState.get_depth (s : BoardState) : Nat :=
  ((List.range BOARD_WIDTH).map s.board.get_height).sum

/-- transposition.rs: TranspositionTable of weak references to
BoardStates, with the Rc heap made explicit: nodes is the arena of live
BoardStates (an Rc handle is an index) and table maps the hashed byte
sequence of a board (Board::iter, assumed collision-free) to a handle.
All nodes stay live in the scenarios covered by the claims, so weak
upgrades always succeed. -/
structure StateStore where
  nodes : List BoardState
  table : List (List Nat × Nat)
deriving DecidableEq, Repr

def StateStore.get_node (e : StateStore) (id : Nat) : BoardState :=
  e.nodes.getD id (BoardState.new Board.default false)

def StateStore.set_node (e : StateStore) (id : Nat) (s : BoardState) : StateStore :=
  { e with nodes := e.nodes.set id s }

/-- HashMap::get on the hash-keyed table: first matching key wins
(inserts prepend, so this models HashMap replacement). -/
def table_lookup (t : List (List Nat × Nat)) (key : List Nat) : Option Nat :=
  (t.find? fun p => p.1 == key).map Prod.snd

/-- transposition.rs: get_transposed — normal hash first, then the
mirrored hash; the Bool is IsFlipped (false = Normal, true = Flipped). -/
def StateStore.get_transposed (e : StateStore) (b : Board) : Option (Nat × Bool) :=
  match table_lookup e.table b.iter with
  | some id => some (id, false)
  | none =>
    match table_lookup e.table b.flipped_iter with
    | some id => some (id, true)
    | none => none

/-- transposition.rs: get_board_state — returns the live transposition if
one exists (asserting its turn matches; the assertion failure is modelled
as none), else constructs and registers a new BoardState. -/
def StateStore.get_board_state (e : StateStore) (b : Board) (turn : Bool) :
    Option ((Nat × Bool) × StateStore) :=
  match e.get_transposed b with
  | some (id, fl) =>
      if (e.get_node id).get_turn = turn then some ((id, fl), e) else none
  | none =>
      let id := e.nodes.length
      some ((id, false),
        { nodes := e.nodes ++ [BoardState.new b turn],
          table := (b.iter, id) :: e.table })

/-- board_state.rs: the column order used by generate_children. -/
def IDEAL_COLUMNS_FIRST : List Nat := [3, 4, 2, 5, 1, 6, 0]

/-- board_state.rs: the loop body of generate_children — one attempted
drop per column, each successful drop resolved through the transposition
table and appended to the node's children. -/
def generate_children_loop : List Nat → Nat → StateStore → Option StateStore
  | [], _, e => some e
  | col :: rest, id, e =>
      let parent := e.get_node id
      let dropped := parent.board.drop_piece col parent.get_turn
      if dropped.2 then
        match e.get_board_state dropped.1 (!parent.get_turn) with
        | none => none
        | some ((cid, fl), e1) =>
            let parent1 := e1.get_node id
            let e2 := e1.set_node id
              { parent1 with children := parent1.children ++
                  [{ state := cid, last_move := col, is_flipped := fl }] }
            generate_children_loop rest id e2
      else
        generate_children_loop rest id e

/-- board_state.rs: generate_children — no children for finished games,
idempotent via the length guard, otherwise fills the children list in
IDEAL_COLUMNS_FIRST order and returns the handles of all children. -/
def StateStore.generate_children (e : StateStore) (id : Nat) :
    Option (List Nat × StateStore) :=
  if (e.get_node id).game_over ≠ GameOver.NoWin then some ([], e)
  else if (e.get_node id).children.length > 0 then some ([], e)
  else
    match generate_children_loop IDEAL_COLUMNS_FIRST id e with
    | none => none
    | some e' => some ((e'.get_node id).children.map (·.state), e')

section EngineInvariants

theorem getD_set_self_poly {α : Type} (l : List α) (i : Nat) (v d : α)
    (h : i < l.length) : (l.set i v).getD i d = v := by
  rw [List.getD_eq_getElem _ _ (by simpa using h)]
  simp [List.getElem_set]

theorem getD_append_left {α : Type} (l m : List α) (i : Nat) (d : α)
    (h : i < l.length) : (l ++ m).getD i d = l.getD i d := by
  rw [List.getD_eq_getElem _ _ (by simp; omega), List.getD_eq_getElem _ _ h]
  exact List.getElem_append_left h

/-- The C8 invariant: every node with a decided outcome has no children. -/
def StateStore.TerminalsChildless (e : StateStore) : Prop :=
  ∀ s ∈ e.nodes, s.game_over ≠ GameOver.NoWin → s.children = []

instance (e : StateStore) : Decidable e.TerminalsChildless :=
  List.decidableBAll _ _

theorem get_board_state_nodes (e : StateStore) (b : Board) (t : Bool)
    (r : Nat × Bool) (e' : StateStore) (h : e.get_board_state b t = some (r, e')) :
    e'.nodes = e.nodes ∨ e'.nodes = e.nodes ++ [BoardState.new b t] := by
  unfold StateStore.get_board_state at h
  cases hm : e.get_transposed b with
  | some p =>
      rw [hm] at h
      obtain ⟨id, fl⟩ := p
      simp only at h
      split at h
      · left; cases h; rfl
      · cases h
  | none =>
      rw [hm] at h
      simp only at h
      cases h
      right; rfl

theorem TerminalsChildless_set (e : StateStore) (id : Nat) (v : BoardState)
    (hinv : e.TerminalsChildless) (hgo : v.game_over = GameOver.NoWin) :
    (e.set_node id v).TerminalsChildless := by
  intro s hs hs2
  rcases List.mem_or_eq_of_mem_set hs with h | h
  · exact hinv s h hs2
  · subst h; exact absurd hgo hs2

theorem default_node_no_win :
    (BoardState.new Board.default false).game_over = GameOver.NoWin := by decide

theorem get_node_set_same (e : StateStore) (id : Nat) (v : BoardState)
    (hid : id < e.nodes.length) : (e.set_node id v).get_node id = v :=
  getD_set_self_poly _ _ _ _ hid

/-- generate_children_loop preserves the terminal-nodes-childless
invariant: only the expanding node (whose outcome is still undecided)
gains children, and freshly created nodes start childless. -/
theorem generate_children_loop_inv (cols : List Nat) (id : Nat) :
    ∀ e e', generate_children_loop cols id e = some e' →
    id < e.nodes.length →
    (e.get_node id).game_over = GameOver.NoWin →
    e.TerminalsChildless →
    e'.TerminalsChildless := by
  induction cols with
  | nil =>
      intro e e' h _ _ hinv
      unfold generate_children_loop at h
      cases h; exact hinv
  | cons col rest ih =>
      intro e e' h hlen hid hinv
      unfold generate_children_loop at h
      simp only at h
      split at h
      · split at h
        · cases h
        · next r1 cid fl e1 heq =>
            have hn := get_board_state_nodes _ _ _ _ _ heq
            have hlen1 : id < e1.nodes.length := by
              rcases hn with hn | hn <;> rw [hn]
              · exact hlen
              · simp only [List.length_append]; omega
            have hid1 : (e1.get_node id).game_over = GameOver.NoWin := by
              unfold StateStore.get_node
              rcases hn with hn | hn
              · rw [hn]; exact hid
              · rw [hn, getD_append_left _ _ _ _ hlen]; exact hid
            have hinv1 : e1.TerminalsChildless := by
              intro s hs hs2
              unfold StateStore.TerminalsChildless at hinv
              rcases hn with hn | hn
              · exact hinv s (hn ▸ hs) hs2
              · rw [hn] at hs
                rcases List.mem_append.mp hs with hmem | hmem
                · exact hinv s hmem hs2
                · rw [List.mem_singleton.mp hmem]; rfl
            refine ih _ _ h ?_ ?_ ?_
            · simpa [StateStore.set_node] using hlen1
            · rw [get_node_set_same _ _ _ hlen1]; exact hid1
            · exact TerminalsChildless_set _ _ _ hinv1 hid1
      · exact ih _ _ h hlen hid hinv

/-- C8: generate_children returns an empty list and leaves the store
untouched whenever the node is already decided or already has at least
one child (idempotence), and in every case it preserves the invariant
that a node with a decided outcome has zero children. -/
theorem C8_generate_children_guard_and_invariant (e : StateStore) (id : Nat) :
    (((e.get_node id).game_over ≠ GameOver.NoWin ∨ (e.get_node id).children ≠ []) →
      e.generate_children id = some ([], e)) ∧
    (∀ l e', e.generate_children id = some (l, e') → id < e.nodes.length →
      e.TerminalsChildless → e'.TerminalsChildless) := by
  constructor
  · intro h
    unfold StateStore.generate_children
    rcases h with h | h
    · simp [h]
    · have hp : (e.get_node id).children.length > 0 := List.length_pos.mpr h
      by_cases hg : (e.get_node id).game_over ≠ GameOver.NoWin
      · simp [hg]
      · simp [hg, hp]
  · intro l e' h hlen hinv
    unfold StateStore.generate_children at h
    split at h
    · cases h; exact hinv
    · split at h
      · cases h; exact hinv
      · next hgo _ =>
          split at h
          · cases h
          · next e1 heq =>
              cases h
              exact generate_children_loop_inv _ _ _ _ heq hlen (not_ne_iff.mp hgo) hinv

/-- A one-node store whose node is a decided (tie) position. -/
def C8exStore : StateStore :=
  ⟨[⟨Board.default, [], ⟨0, 0⟩, false, GameOver.Tie⟩], [(Board.default.iter, 0)]⟩

/-- C8 witness: on a concrete store holding a finished node,
generate_children returns no children and the unchanged store, and the
invariant is preserved through the call. -/
theorem C8_generate_children_guard_and_invariant_witness :
    C8exStore.generate_children 0 = some ([], C8exStore) ∧
      C8exStore.TerminalsChildless := by
  have h1 := (C8_generate_children_guard_and_invariant C8exStore 0).1 (Or.inl (by decide))
  exact ⟨h1, (C8_generate_children_guard_and_invariant C8exStore 0).2 [] C8exStore h1
    (by decide) (by decide)⟩

end EngineInvariants

section C7Transposition

theorem flip_iter_eq (b : Board) : b.flip.iter = b.flipped_iter := rfl

theorem flip_flipped_iter_eq (b : Board) : b.flip.flipped_iter = b.iter := by
  simp [Board.flip, Board.flipped_iter, Board.iter]

theorem getD_append_length {α : Type} (l : List α) (v d : α) :
    (l ++ [v]).getD l.length d = v := by
  rw [List.getD_eq_getElem _ _ (by simp)]
  simp

theorem get_transposed_none (e : StateStore) (b : Board)
    (h : e.get_transposed b = none) :
    table_lookup e.table b.iter = none ∧ table_lookup e.table b.flipped_iter = none := by
  unfold StateStore.get_transposed at h
  cases h1 : table_lookup e.table b.iter with
  | some id => rw [h1] at h; cases h
  | none =>
      rw [h1] at h
      cases h2 : table_lookup e.table b.flipped_iter with
      | some id => rw [h2] at h; cases h
      | none => exact ⟨rfl, rfl⟩

theorem table_lookup_cons_pos (k : List Nat) (v : Nat) (t : List (List Nat × Nat)) :
    table_lookup ((k, v) :: t) k = some v := by
  unfold table_lookup
  rw [List.find?_cons_of_pos _ (by simp)]
  rfl

theorem table_lookup_cons_neg (k : List Nat) (v : Nat) (t : List (List Nat × Nat))
    (key : List Nat) (h : k ≠ key) :
    table_lookup ((k, v) :: t) key = table_lookup t key := by
  unfold table_lookup
  rw [List.find?_cons_of_neg _ (by simpa using h)]

/-- C7 (amended): when get_board_state(b, t) takes the creation path and
the mirrored byte sequence of b differs from its own, the mirror of b
afterwards resolves to the same node with orientation Flipped, and b
itself still resolves to it with orientation Normal. -/
theorem C7_mirror_lookup (e : StateStore) (b : Board) (t : Bool)
    (h : e.get_transposed b = none) (hne : b.flipped_iter ≠ b.iter) :
    ∃ e1, e.get_board_state b t = some ((e.nodes.length, false), e1) ∧
      e1.get_board_state b.flip t = some ((e.nodes.length, true), e1) ∧
      e1.get_board_state b t = some ((e.nodes.length, false), e1) := by
  obtain ⟨hn, hf⟩ := get_transposed_none e b h
  refine ⟨⟨e.nodes ++ [BoardState.new b t], (b.iter, e.nodes.length) :: e.table⟩,
    ?_, ?_, ?_⟩
  · unfold StateStore.get_board_state
    rw [h]
  · have hl1 : table_lookup ((b.iter, e.nodes.length) :: e.table) b.flip.iter = none := by
      rw [flip_iter_eq, table_lookup_cons_neg _ _ _ _ (fun hc => hne hc.symm)]
      exact hf
    have hl2 : table_lookup ((b.iter, e.nodes.length) :: e.table) b.flip.flipped_iter
        = some e.nodes.length := by
      rw [flip_flipped_iter_eq]
      exact table_lookup_cons_pos _ _ _
    have hc : ((StateStore.mk (e.nodes ++ [BoardState.new b t])
        ((b.iter, e.nodes.length) :: e.table)).get_node e.nodes.length).get_turn = t := by
      show ((e.nodes ++ [BoardState.new b t]).getD e.nodes.length _).get_turn = t
      rw [getD_append_length]
      rfl
    unfold StateStore.get_board_state StateStore.get_transposed
    simp only [hl1, hl2]
    rw [if_pos hc]
  · have hl1 : table_lookup ((b.iter, e.nodes.length) :: e.table) b.iter
        = some e.nodes.length := table_lookup_cons_pos _ _ _
    have hc : ((StateStore.mk (e.nodes ++ [BoardState.new b t])
        ((b.iter, e.nodes.length) :: e.table)).get_node e.nodes.length).get_turn = t := by
      show ((e.nodes ++ [BoardState.new b t]).getD e.nodes.length _).get_turn = t
      rw [getD_append_length]
      rfl
    unfold StateStore.get_board_state StateStore.get_transposed
    simp only [hl1]
    rw [if_pos hc]

/-- C7 counterexample: on a left-right symmetric board (the empty board)
the mirror query finds the normal hash first and returns orientation
Normal, not Flipped as claimed. -/
theorem C7_counterexample_symmetric_board :
    ((((StateStore.mk [] []).get_board_state Board.default false).bind
        fun p => p.2.get_board_state Board.default.flip false).map fun q => q.1.2)
      = some false ∧ false ≠ true := ⟨by decide, by decide⟩

/-- C7 witness: a concrete asymmetric board (one piece in column 0) in an
empty store. -/
theorem C7_mirror_lookup_witness :
    ∃ e1, (StateStore.mk [] []).get_board_state (Board.mk [1,0,0,0,0,0,0] [0,0,0,0,0,0,0]) false
        = some ((0, false), e1) ∧
      e1.get_board_state (Board.mk [1,0,0,0,0,0,0] [0,0,0,0,0,0,0]).flip false
        = some ((0, true), e1) ∧
      e1.get_board_state (Board.mk [1,0,0,0,0,0,0] [0,0,0,0,0,0,0]) false
        = some ((0, false), e1) :=
  C7_mirror_lookup (StateStore.mk [] []) (Board.mk [1,0,0,0,0,0,0] [0,0,0,0,0,0,0]) false
    (by decide) (by decide)

end C7Transposition

/-- layer_generator.rs: LayerGenerator — two frontier buffers of node
handles, a flag saying which is the newer, and the owned transposition
table. -/
structure LayerGenerator where
  generation_1 : List Nat
  generation_2 : List Nat
  generation_1_is_new : Bool
  table : StateStore
deriving DecidableEq, Repr

def LayerGenerator.get_new_generation (g : LayerGenerator) : List Nat :=
  if g.generation_1_is_new then g.generation_1 else g.generation_2

def LayerGenerator.get_previous_generation (g : LayerGenerator) : List Nat :=
  if g.generation_1_is_new then g.generation_2 else g.generation_1

/-- Writing back through the get_previous_generation borrow. -/
def LayerGenerator.set_previous_generation (g : LayerGenerator) (l : List Nat) :
    LayerGenerator :=
  if g.generation_1_is_new then { g with generation_2 := l }
  else { g with generation_1 := l }

/-- Writing back through the get_new_generation borrow. -/
def LayerGenerator.set_new_generation (g : LayerGenerator) (l : List Nat) :
    LayerGenerator :=
  if g.generation_1_is_new then { g with generation_1 := l }
  else { g with generation_2 := l }

/-- layer_generator.rs: the body of Iterator::next once a node can be
popped from the previous generation — Vec::pop takes the last element,
the returned child handles are appended to the new generation, and the
count of returned handles is yielded. -/
def LayerGenerator.pop_expand (g : LayerGenerator) :
    Option (Option Nat × LayerGenerator) :=
  match g.get_previous_generation.getLast? with
  | none => some (none, g)
  | some id =>
      let g1 := g.set_previous_generation g.get_previous_generation.dropLast
      match g1.table.generate_children id with
      | none => none
      | some (generated_children, e1) =>
          let g2 := { g1 with table := e1 }
          some (some generated_children.length,
            g2.set_new_generation (g2.get_new_generation ++ generated_children))

/-- layer_generator.rs: Iterator::next — pop and expand from the
previous generation; if it is empty but the new generation is not, swap
the generations and retry; if both are empty the tree is complete. -/
def LayerGenerator.next (g : LayerGenerator) : Option (Option Nat × LayerGenerator) :=
  if g.get_previous_generation.length ≠ 0 then g.pop_expand
  else if g.get_new_generation.length ≠ 0 then
    LayerGenerator.pop_expand { g with generation_1_is_new := !g.generation_1_is_new }
  else some (none, g)

/-- Modelled from the spec: restart() rebuilds both buffers by scanning
the transposition table — walk all entries, skip nodes with existing
children or terminal outcome, bucket survivors by depth, and take the
two shallowest non-empty buckets as (previous, new) generation, ties
broken by which bucket is populated when only one exists. (The revision
of layer_generator.rs in the repository takes the root instead and walks
the tree; game_manager.rs calls this table-scanning, argument-free
version, which is not in the snapshot.) -/
def restart_layers (e : StateStore) : List Nat × List Nat :=
  let survivors := (e.table.map Prod.snd).filter fun id =>
    ((e.get_node id).children.length == 0) && ((e.get_node id).game_over == GameOver.NoWin)
  match survivors with
  | [] => ([], [])
  | s0 :: _ =>
      let d1 := (survivors.map fun id => (e.get_node id).get_depth).foldl
        Nat.min (e.get_node s0).get_depth
      let shallow := survivors.filter fun id => (e.get_node id).get_depth == d1
      let deeper := survivors.filter fun id => (e.get_node id).get_depth != d1
      match deeper with
      | [] => (shallow, [])
      | o0 :: _ =>
          let d2 := (deeper.map fun id => (e.get_node id).get_depth).foldl
            Nat.min (e.get_node o0).get_depth
          (shallow, deeper.filter fun id => (e.get_node id).get_depth == d2)

/-- Modelled from the spec: the argument-free LayerGenerator::restart
called by make_move, reusing the owned transposition table. -/
def LayerGenerator.restart (g : LayerGenerator) : LayerGenerator :=
  let (previous_generation, new_generation) := restart_layers g.table
  { generation_1 := previous_generation, generation_2 := new_generation,
    generation_1_is_new := false, table := g.table }

/-- Modelled from the spec: LayerGenerator::new(table) as called by
GameManager::new_game — the same table scan as restart. -/
def LayerGenerator.new (table : StateStore) : LayerGenerator :=
  let (previous_generation, new_generation) := restart_layers table
  { generation_1 := previous_generation, generation_2 := new_generation,
    generation_1_is_new := false, table := table }

/-- Modelled from the spec: buffer_size — the number of strong
references held by the generator's two frontier buffers, subtracted from
the node count by calculate_size. -/
def LayerGenerator.buffer_size (g : LayerGenerator) : Nat :=
  g.generation_1.length + g.generation_2.length

/-- game_manager.rs: GameManager — the root handle plus the layer
generator (which owns the transposition table). -/
structure GameManager where
  board_state : Nat
  layer_generator : LayerGenerator
deriving DecidableEq, Repr

/-- game_manager.rs: new_game. -/
def GameManager.new_game : GameManager :=
  match (StateStore.mk [] []).get_board_state Board.default false with
  | some ((state, _), table) =>
      { board_state := state, layer_generator := LayerGenerator.new table }
  | none =>
      { board_state := 0, layer_generator := LayerGenerator.new (StateStore.mk [] []) }

/-- game_manager.rs: the try_generate_x_states loop, with explicit fuel
(the Rust loop runs until enough states are generated or the generator
is exhausted; fuel exhaustion is modelled as none). -/
def try_generate_loop : Nat → Nat → Nat → LayerGenerator → Option (Nat × LayerGenerator)
  | 0, _, _, _ => none
  | fuel + 1, x, num_generated, g =>
      if num_generated < x then
        match g.next with
        | none => none
        | some (some num, g1) => try_generate_loop fuel x (num_generated + num) g1
        | some (none, g1) => some (num_generated, g1)
      else some (num_generated, g)

/-- game_manager.rs: try_generate_x_states. -/
def GameManager.try_generate_x_states (gm : GameManager) (fuel x : Nat) :
    Option (Nat × GameManager) :=
  match try_generate_loop fuel x 0 gm.layer_generator with
  | none => none
  | some (num_generated, g1) => some (num_generated, { gm with layer_generator := g1 })

/-- board.rs: to_arrays — row 0 of the output is the top board row. -/
def Board.to_arrays (b : Board) : List (List Nat) :=
  (List.range BOARD_HEIGHT).map fun row =>
    (List.range BOARD_WIDTH).map fun col =>
      match b.get_piece col (BOARD_HEIGHT - 1 - row) with
      | some piece => cond piece 2 1
      | none => 0

/-- game_manager.rs: get_position. -/
def GameManager.get_position (gm : GameManager) : List (List Nat) :=
  (gm.layer_generator.table.get_node gm.board_state).board.to_arrays

/-- The strong count of an Rc in a steady GameManager state: one strong
reference per child edge in the arena, one for the manager's root
handle, and one per occurrence in either generator buffer. -/
def strong_count (gm : GameManager) (id : Nat) : Nat :=
  (gm.layer_generator.table.nodes.map fun s =>
    (s.children.filter fun c => c.state == id).length).sum
  + (if gm.board_state == id then 1 else 0)
  + (gm.layer_generator.generation_1.filter (· == id)).length
  + (gm.layer_generator.generation_2.filter (· == id)).length

/-- tree_size.rs: TreeSize. The memory field (a sum of fixed
platform-dependent size_of constants over the same live entries and
strong counts) is omitted from the model. -/
structure TreeSize where
  depth : Nat
  size : Nat
deriving DecidableEq, Repr

/-- tree_size.rs: calculate_size — walk the table, total the strong
counts of live entries, track the maximum depth, then subtract the
generator's buffer holdings. -/
def calculate_size (gm : GameManager) : TreeSize :=
  let e := gm.layer_generator.table
  let live := (e.table.map Prod.snd).filter fun id => strong_count gm id != 0
  let size := (live.map fun id => strong_count gm id).sum
  let depth := live.foldl (fun depth id => Nat.max (e.get_node id).get_depth depth) 0
  { depth := depth - (e.get_node gm.board_state).get_depth + 1,
    size := size - gm.layer_generator.buffer_size }

/-- game_manager.rs: size. -/
def GameManager.size (gm : GameManager) : TreeSize := calculate_size gm

/-- board_state.rs: the Default BoardState left behind by RefCell::take. -/
def BoardState.default_state : BoardState :=
  { board := Board.default, children := [], rollout_results := ⟨0, 0⟩,
    turn := false, game_over := GameOver.NoWin }

/-- board_state.rs: narrow_possibilities — select the child reached by
col (panic, modelled as none, if absent); a Flipped child has its board
unflipped and its own child edges adjusted via parent_flipped. -/
def narrow_possibilities (e : StateStore) (id : Nat) (col : Nat) :
    Option (Nat × StateStore) :=
  match (e.get_node id).children.find? fun child => child.last_move == col with
  | none => none
  | some child =>
      if child.is_flipped then
        let cs := e.get_node child.state
        some (child.state, e.set_node child.state
          { cs with board := cs.board.flip,
                    children := cs.children.map ChildState.parent_flipped })
      else some (child.state, e)

/-- game_manager.rs: the tail of make_move once the root is known to
have children — the valid-column scan, the Rc take/replace narrowing
(the root cell receives the chosen child's data and the child cell is
left with the Default BoardState), and the generator restart. The Bool
result is true for Ok and false for Err. -/
def make_move_rest (gm : GameManager) (col : Nat) : Option (Bool × GameManager) :=
  let root := gm.layer_generator.table.get_node gm.board_state
  if ¬ (root.children.any fun child => child.last_move == col) then some (false, gm)
  else
    match narrow_possibilities gm.layer_generator.table gm.board_state col with
    | none => none
    | some (new_root, e2) =>
        let narrowed := e2.get_node new_root
        let e3 := (e2.set_node new_root BoardState.default_state).set_node
          gm.board_state narrowed
        let g3 := { gm.layer_generator with table := e3 }
        some (true, { gm with layer_generator := g3.restart })

/-- game_manager.rs: make_move — fails if the game is over, if no
children exist for the root and none can be generated, or if the column
is not among the root's moves. -/
def GameManager.make_move (gm : GameManager) (fuel col : Nat) :
    Option (Bool × GameManager) :=
  if (gm.layer_generator.table.get_node gm.board_state).game_over ≠ GameOver.NoWin then
    some (false, gm)
  else if (gm.layer_generator.table.get_node gm.board_state).children.length = 0 then
    match gm.try_generate_x_states fuel 1 with
    | none => none
    | some (_, gm1) =>
        if (gm1.layer_generator.table.get_node gm1.board_state).children.length = 0 then
          some (false, gm1)
        else make_move_rest gm1 col
  else make_move_rest gm col

section C4LayerGeneration

theorem getLast?_ne_none {α : Type} (l : List α) (h : l ≠ []) : l.getLast? ≠ none := by
  induction l with
  | nil => exact absurd rfl h
  | cons a t ih =>
      cases t with
      | nil => simp
      | cons b u => rw [List.getLast?_cons_cons]; exact ih (by simp)

theorem pop_expand_pos (g : LayerGenerator) (h : g.get_previous_generation ≠ [])
    (r : Option Nat) (g1 : LayerGenerator) (hp : g.pop_expand = some (r, g1)) :
    r ≠ none := by
  unfold LayerGenerator.pop_expand at hp
  cases hl : g.get_previous_generation.getLast? with
  | none => exact absurd hl (getLast?_ne_none _ h)
  | some id =>
      rw [hl] at hp
      simp only at hp
      split at hp
      · cases hp
      · cases hp; simp

theorem get_previous_swap (g : LayerGenerator) :
    ({ g with generation_1_is_new := !g.generation_1_is_new } :
      LayerGenerator).get_previous_generation = g.get_new_generation := by
  unfold LayerGenerator.get_previous_generation LayerGenerator.get_new_generation
  cases g.generation_1_is_new <;> rfl

theorem next_none_eq (g g1 : LayerGenerator) (h : g.next = some (none, g1)) :
    g1 = g ∧ g.get_previous_generation = [] ∧ g.get_new_generation = [] := by
  unfold LayerGenerator.next at h
  split at h
  · next hne =>
      exact absurd rfl (pop_expand_pos g (fun hc => hne (by rw [hc]; rfl)) none g1 h)
  · split at h
    · next _ hne =>
        refine absurd rfl (pop_expand_pos _ ?_ none g1 h)
        rw [get_previous_swap]
        intro hc
        exact hne (by rw [hc]; rfl)
    · next h1 h2 =>
        cases h
        exact ⟨rfl, List.length_eq_zero.mp (by omega),
          List.length_eq_zero.mp (by omega)⟩

theorem next_of_exhausted (g : LayerGenerator)
    (h1 : g.get_previous_generation = []) (h2 : g.get_new_generation = []) :
    g.next = some (none, g) := by
  unfold LayerGenerator.next
  simp [h1, h2]

theorem try_generate_loop_exhaustion (fuel : Nat) :
    ∀ x num g r g', try_generate_loop fuel x num g = some (r, g') → r < x →
      LayerGenerator.next g' = some (none, g') := by
  induction fuel with
  | zero =>
      intro x num g r g' h _
      unfold try_generate_loop at h
      cases h
  | succ n ih =>
      intro x num g r g' h hr
      unfold try_generate_loop at h
      split at h
      · cases hn : g.next with
        | none => rw [hn] at h; cases h
        | some p =>
            rw [hn] at h
            obtain ⟨k, g1⟩ := p
            cases k with
            | some num1 => exact ih x (num + num1) g1 r g' h hr
            | none =>
                cases h
                obtain ⟨rfl, hp, hq⟩ := next_none_eq g g' hn
                exact next_of_exhausted g' hp hq
      · cases h
        omega

/-- C4 (amended): when try_generate_x_states returns a count below the
request, the layer generator is exhausted — both frontier buffers are
empty and every further next() yields nothing. -/
theorem C4_try_generate_exhaustion (fuel x r : Nat) (gm gm' : GameManager)
    (h : gm.try_generate_x_states fuel x = some (r, gm')) (hr : r < x) :
    gm'.layer_generator.next = some (none, gm'.layer_generator) := by
  unfold GameManager.try_generate_x_states at h
  cases hl : try_generate_loop fuel x 0 gm.layer_generator with
  | none => rw [hl] at h; cases h
  | some p =>
      rw [hl] at h
      obtain ⟨num, g1⟩ := p
      simp only [Option.some.injEq, Prod.mk.injEq] at h
      obtain ⟨rfl, rfl⟩ := h
      exact try_generate_loop_exhaustion fuel x 0 gm.layer_generator num g1 hl hr

/-- A freshly created one-node store for the empty board, as built by
new_game. -/
def freshStore : StateStore :=
  ⟨[BoardState.new Board.default false], [(Board.default.iter, 0)]⟩

/-- The GameManager produced by new_game: the empty-board root, whose
handle sits alone in the previous generation. -/
def freshRootGM : GameManager := ⟨0, ⟨[0], [], false, freshStore⟩⟩

/-- C4 counterexample: on a new game, try_generate_x_states(1) expands
the root and returns 7, exceeding the requested bound of 1. -/
theorem C4_counterexample_overshoot :
    (GameManager.try_generate_x_states freshRootGM 10 1).map Prod.fst = some 7 ∧
      ¬ (7 ≤ 1) := ⟨by decide, by decide⟩

/-- C4 witness: a manager whose generator has two empty buffers reports
0 < 3 generated states, and its generator is indeed exhausted. -/
theorem C4_try_generate_exhaustion_witness :
    (GameManager.mk 0 ⟨[], [], false, freshStore⟩).layer_generator.next
      = some (none, (GameManager.mk 0 ⟨[], [], false, freshStore⟩).layer_generator) :=
  C4_try_generate_exhaustion 5 3 0 (GameManager.mk 0 ⟨[], [], false, freshStore⟩)
    (GameManager.mk 0 ⟨[], [], false, freshStore⟩) (by decide) (by decide)

end C4LayerGeneration

section C5MakeMove

theorem getD_set_other_poly {α : Type} (l : List α) (i j : Nat) (v d : α)
    (h : j ≠ i) : (l.set i v).getD j d = l.getD j d := by
  rcases Nat.lt_or_ge j l.length with hj | hj
  · rw [List.getD_eq_getElem _ _ (by simpa using hj), List.getD_eq_getElem _ _ hj]
    simp [List.getElem_set, Ne.symm h]
  · rw [List.getD_eq_default _ _ (by simpa using hj), List.getD_eq_default _ _ hj]

/-- Tree operations may append nodes and rewrite children lists, but
never move or rewrite the board of an existing node. -/
def StateStore.PreservesNodes (e e' : StateStore) : Prop :=
  e.nodes.length ≤ e'.nodes.length ∧
  ∀ j, j < e.nodes.length → (e'.get_node j).board = (e.get_node j).board

theorem preserves_refl (e : StateStore) : e.PreservesNodes e :=
  ⟨Nat.le_refl _, fun _ _ => rfl⟩

theorem preserves_trans (e1 e2 e3 : StateStore)
    (h1 : e1.PreservesNodes e2) (h2 : e2.PreservesNodes e3) :
    e1.PreservesNodes e3 :=
  ⟨Nat.le_trans h1.1 h2.1,
   fun j hj => (h2.2 j (Nat.lt_of_lt_of_le hj h1.1)).trans (h1.2 j hj)⟩

theorem get_board_state_preserves (e : StateStore) (b : Board) (t : Bool)
    (r : Nat × Bool) (e' : StateStore) (h : e.get_board_state b t = some (r, e')) :
    e.PreservesNodes e' := by
  rcases get_board_state_nodes e b t r e' h with hn | hn
  · exact ⟨by rw [hn], fun j _ => by unfold StateStore.get_node; rw [hn]⟩
  · refine ⟨by rw [hn]; simp, fun j hj => ?_⟩
    unfold StateStore.get_node
    rw [hn, getD_append_left _ _ _ _ hj]

theorem set_node_preserves (e : StateStore) (id : Nat) (v : BoardState)
    (hb : v.board = (e.get_node id).board) :
    e.PreservesNodes (e.set_node id v) := by
  refine ⟨by simp [StateStore.set_node], fun j hj => ?_⟩
  by_cases hji : j = id
  · subst hji
    show ((e.nodes.set j v).getD j _).board = _
    rw [getD_set_self_poly _ _ _ _ hj, hb]
  · show ((e.nodes.set id v).getD j _).board = _
    rw [getD_set_other_poly _ _ _ _ _ hji]
    rfl

theorem generate_children_loop_preserves (cols : List Nat) (id : Nat) :
    ∀ e e', generate_children_loop cols id e = some e' → e.PreservesNodes e' := by
  induction cols with
  | nil =>
      intro e e' h
      unfold generate_children_loop at h
      cases h
      exact preserves_refl e
  | cons col rest ih =>
      intro e e' h
      unfold generate_children_loop at h
      simp only at h
      split at h
      · split at h
        · cases h
        · next r1 cid fl e1 heq =>
            refine preserves_trans _ _ _ (get_board_state_preserves _ _ _ _ _ heq)
              (preserves_trans _ _ _ (set_node_preserves e1 id
                { e1.get_node id with children := (e1.get_node id).children ++
                    [{ state := cid, last_move := col, is_flipped := fl }] } rfl)
                (ih _ _ h))
      · exact ih _ _ h

theorem generate_children_preserves (e : StateStore) (id : Nat)
    (l : List Nat) (e' : StateStore) (h : e.generate_children id = some (l, e')) :
    e.PreservesNodes e' := by
  unfold StateStore.generate_children at h
  split at h
  · cases h; exact preserves_refl e
  · split at h
    · cases h; exact preserves_refl e
    · split at h
      · cases h
      · next e1 heq =>
          cases h
          exact generate_children_loop_preserves _ _ _ _ heq

theorem set_previous_table (g : LayerGenerator) (l : List Nat) :
    (g.set_previous_generation l).table = g.table := by
  unfold LayerGenerator.set_previous_generation
  cases g.generation_1_is_new <;> rfl

theorem set_new_table (g : LayerGenerator) (l : List Nat) :
    (g.set_new_generation l).table = g.table := by
  unfold LayerGenerator.set_new_generation
  cases g.generation_1_is_new <;> rfl

theorem pop_expand_preserves (g : LayerGenerator) (r : Option Nat)
    (g' : LayerGenerator) (h : g.pop_expand = some (r, g')) :
    g.table.PreservesNodes g'.table := by
  unfold LayerGenerator.pop_expand at h
  split at h
  · cases h; exact preserves_refl _
  · next id _ =>
      simp only at h
      split at h
      · cases h
      · next ch e1 heq =>
          cases h
          rw [set_new_table]
          show g.table.PreservesNodes e1
          rw [set_previous_table] at heq
          exact generate_children_preserves _ _ _ _ heq

theorem next_preserves (g : LayerGenerator) (r : Option Nat)
    (g' : LayerGenerator) (h : g.next = some (r, g')) :
    g.table.PreservesNodes g'.table := by
  unfold LayerGenerator.next at h
  split at h
  · exact pop_expand_preserves _ _ _ h
  · split at h
    · exact pop_expand_preserves
        { g with generation_1_is_new := !g.generation_1_is_new } r g' h
    · cases h; exact preserves_refl _

theorem try_generate_loop_preserves (fuel : Nat) :
    ∀ x num g r g', try_generate_loop fuel x num g = some (r, g') →
      g.table.PreservesNodes g'.table := by
  induction fuel with
  | zero =>
      intro x num g r g' h
      unfold try_generate_loop at h
      cases h
  | succ n ih =>
      intro x num g r g' h
      unfold try_generate_loop at h
      split at h
      · cases hn : g.next with
        | none => rw [hn] at h; cases h
        | some p =>
            rw [hn] at h
            obtain ⟨k, g1⟩ := p
            cases k with
            | some num1 =>
                exact preserves_trans _ _ _ (next_preserves _ _ _ hn) (ih _ _ _ _ _ h)
            | none =>
                simp only [Option.some.injEq, Prod.mk.injEq] at h
                obtain ⟨rfl, rfl⟩ := h
                exact next_preserves _ _ _ hn
      · simp only [Option.some.injEq, Prod.mk.injEq] at h
        obtain ⟨rfl, rfl⟩ := h
        exact preserves_refl _

theorem try_generate_preserves (gm : GameManager) (fuel x r : Nat)
    (gm' : GameManager) (h : gm.try_generate_x_states fuel x = some (r, gm')) :
    gm'.board_state = gm.board_state ∧
      gm.layer_generator.table.PreservesNodes gm'.layer_generator.table := by
  unfold GameManager.try_generate_x_states at h
  cases hl : try_generate_loop fuel x 0 gm.layer_generator with
  | none => rw [hl] at h; cases h
  | some p =>
      rw [hl] at h
      obtain ⟨num, g1⟩ := p
      simp only [Option.some.injEq, Prod.mk.injEq] at h
      obtain ⟨rfl, rfl⟩ := h
      exact ⟨rfl, try_generate_loop_preserves _ _ _ _ _ _ hl⟩

theorem make_move_rest_err (gm : GameManager) (col : Nat) (gm' : GameManager)
    (h : make_move_rest gm col = some (false, gm')) : gm' = gm := by
  unfold make_move_rest at h
  by_cases hv : ((gm.layer_generator.table.get_node gm.board_state).children.any
      fun child => child.last_move == col) = true
  · rw [if_neg (not_not_intro hv)] at h
    simp only at h
    split at h
    · cases h
    · simp at h
  · rw [if_pos hv] at h
    cases h
    rfl

/-- C5 (amended): every failing make_move leaves get_position unchanged
(the root handle and the root's board are untouched), and whenever the
failure is "game already over" or the root already had children when
the invalid column was rejected, the entire manager state is unchanged.
Failures that first had to generate the root's children may have grown
the tree, changing size(). -/
theorem C5_make_move_failure (gm : GameManager) (fuel col : Nat)
    (gm' : GameManager) (h : gm.make_move fuel col = some (false, gm'))
    (hroot : gm.board_state < gm.layer_generator.table.nodes.length) :
    gm'.get_position = gm.get_position ∧ gm'.board_state = gm.board_state ∧
      (((gm.layer_generator.table.get_node gm.board_state).game_over ≠ GameOver.NoWin ∨
        (gm.layer_generator.table.get_node gm.board_state).children ≠ []) → gm' = gm) := by
  unfold GameManager.make_move at h
  by_cases hgo : (gm.layer_generator.table.get_node gm.board_state).game_over
      ≠ GameOver.NoWin
  · rw [if_pos hgo] at h
    cases h
    exact ⟨rfl, rfl, fun _ => rfl⟩
  · rw [if_neg hgo] at h
    by_cases hch : (gm.layer_generator.table.get_node gm.board_state).children.length = 0
    · rw [if_pos hch] at h
      cases hg : gm.try_generate_x_states fuel 1 with
      | none => rw [hg] at h; cases h
      | some p =>
          rw [hg] at h
          obtain ⟨num, gm1⟩ := p
          simp only at h
          obtain ⟨hbs, hpres⟩ := try_generate_preserves gm fuel 1 num gm1 hg
          have hpos : gm1.get_position = gm.get_position := by
            unfold GameManager.get_position
            rw [hbs, hpres.2 gm.board_state hroot]
          by_cases hch1 :
              (gm1.layer_generator.table.get_node gm1.board_state).children.length = 0
          · rw [if_pos hch1] at h
            cases h
            refine ⟨hpos, hbs, fun hor => ?_⟩
            rcases hor with hor | hor
            · exact absurd (not_ne_iff.mp hgo) hor
            · exact absurd (List.length_eq_zero.mp hch) hor
          · rw [if_neg hch1] at h
            have hgm := make_move_rest_err gm1 col gm' h
            refine ⟨by rw [hgm, hpos], by rw [hgm, hbs], fun hor => ?_⟩
            rcases hor with hor | hor
            · exact absurd (not_ne_iff.mp hgo) hor
            · exact absurd (List.length_eq_zero.mp hch) hor
    · rw [if_neg hch] at h
      have hgm := make_move_rest_err gm col gm' h
      exact ⟨by rw [hgm], by rw [hgm], fun _ => hgm⟩

/-- C5 counterexample: make_move on a fresh game with the invalid
column 9 fails, yet size() changes, because the failed
call generated the root's children first. -/
theorem C5_counterexample_size_changed :
    (GameManager.make_move freshRootGM 10 9).map Prod.fst = some false ∧
      ((GameManager.make_move freshRootGM 10 9).map fun p => p.2.size)
        = some ⟨2, 8⟩ ∧
      freshRootGM.size = ⟨1, 1⟩ ∧ (⟨2, 8⟩ : TreeSize) ≠ ⟨1, 1⟩ :=
  ⟨by decide, by decide, by decide, by decide⟩

/-- C5 witness: the same failing call leaves get_position unchanged. -/
theorem C5_make_move_failure_witness :
    ((GameManager.make_move freshRootGM 10 9).map fun p => p.2.get_position)
      = some freshRootGM.get_position := by
  have h1 : (GameManager.make_move freshRootGM 10 9).map Prod.fst = some false := by
    decide
  cases hm : GameManager.make_move freshRootGM 10 9 with
  | none => rw [hm] at h1; cases h1
  | some p =>
      rw [hm] at h1
      have hp : p.1 = false := by simpa using h1
      have hc := C5_make_move_failure freshRootGM 10 9 p.2
        (by rw [hm, ← hp]) (by decide)
      show some (p.2.get_position) = some freshRootGM.get_position
      rw [hc.1]

end C5MakeMove

section C3Rollouts

/-- monte_carlo.rs: update_rollout_results — Tie adds 1 to success,
OneWins adds 2 when the node's turn is false, TwoWins adds 2 when it is
true, total always gains 2; a NoWin result panics (none). -/
def update_rollout_results (s : BoardState) (result : GameOver) : Option BoardState :=
  match result with
  | GameOver.NoWin => none
  | GameOver.Tie =>
      some { s with rollout_results :=
        { success := s.rollout_results.success + 1,
          total := s.rollout_results.total + 2 } }
  | GameOver.OneWins =>
      if !s.get_turn then
        some { s with rollout_results :=
          { success := s.rollout_results.success + 2,
            total := s.rollout_results.total + 2 } }
      else
        some { s with rollout_results :=
          { s.rollout_results with total := s.rollout_results.total + 2 } }
  | GameOver.TwoWins =>
      if s.get_turn then
        some { s with rollout_results :=
          { success := s.rollout_results.success + 2,
            total := s.rollout_results.total + 2 } }
      else
        some { s with rollout_results :=
          { s.rollout_results with total := s.rollout_results.total + 2 } }

/-- The player who wins under a decided outcome (false is player one,
whose pieces are the false-colored ones). -/
def winning_side : GameOver → Option Bool
  | GameOver.OneWins => some false
  | GameOver.TwoWins => some true
  | _ => none

/-- C3 (amended): total always gains exactly 2; a tie credits exactly 1
success; a decided win credits exactly 2 success if and only if the
node's own turn-to-move equals the WINNING side, and leaves success
unchanged otherwise. -/
theorem C3_rollout_update (s : BoardState) (r : GameOver) (s' : BoardState)
    (h : update_rollout_results s r = some s') :
    s'.rollout_results.total = s.rollout_results.total + 2 ∧
    (r = GameOver.Tie → s'.rollout_results.success = s.rollout_results.success + 1) ∧
    (∀ w, winning_side r = some w →
      (s'.rollout_results.success = s.rollout_results.success + 2 ↔ s.get_turn = w) ∧
      (s.get_turn ≠ w → s'.rollout_results.success = s.rollout_results.success)) := by
  cases r with
  | NoWin => cases h
  | Tie =>
      cases h
      refine And.intro rfl (And.intro (fun _ => rfl) (fun w hw => ?_))
      simp [winning_side] at hw
  | OneWins =>
      simp only [update_rollout_results] at h
      split at h
      · next hturn =>
          cases h
          have ht : s.get_turn = false := by simpa using hturn
          refine And.intro rfl (And.intro (fun hc => by cases hc) (fun w hw => ?_))
          simp only [winning_side, Option.some.injEq] at hw
          subst hw
          simp [ht]
      · next hturn =>
          cases h
          have ht : s.get_turn = true := by simpa using hturn
          refine And.intro rfl (And.intro (fun hc => by cases hc) (fun w hw => ?_))
          simp only [winning_side, Option.some.injEq] at hw
          subst hw
          refine And.intro (Iff.intro (fun hc => by simp at hc)
            (fun hc => by rw [ht] at hc; cases hc)) (fun _ => rfl)
  | TwoWins =>
      simp only [update_rollout_results] at h
      split at h
      · next hturn =>
          cases h
          have ht : s.get_turn = true := hturn
          refine And.intro rfl (And.intro (fun hc => by cases hc) (fun w hw => ?_))
          simp only [winning_side, Option.some.injEq] at hw
          subst hw
          simp [ht]
      · next hturn =>
          cases h
          have ht : s.get_turn = false := by simpa using hturn
          refine And.intro rfl (And.intro (fun hc => by cases hc) (fun w hw => ?_))
          simp only [winning_side, Option.some.injEq] at hw
          subst hw
          refine And.intro (Iff.intro (fun hc => by simp at hc)
            (fun hc => by rw [ht] at hc; cases hc)) (fun _ => rfl)

/-- C3 counterexample: a node whose turn-to-move is false (player one,
the WINNER of OneWins, so not the losing side) still gets its success
counter increased by 2 after a OneWins rollout — the code credits the
winning side, not the losing side as claimed. -/
theorem C3_counterexample_winner_credited :
    ((update_rollout_results (BoardState.new Board.default false) GameOver.OneWins).map
        fun s => s.rollout_results.success) = some 2 ∧
      (BoardState.new Board.default false).get_turn = false ∧
      winning_side GameOver.OneWins = some false ∧ (2 : Nat) ≠ 0 :=
  ⟨by decide, by decide, by decide, by decide⟩

/-- C3 witness: a tie rollout on a fresh node yields total 2. -/
theorem C3_rollout_update_witness :
    ((update_rollout_results (BoardState.new Board.default false) GameOver.Tie).map
        fun s => s.rollout_results.total) = some 2 := by
  cases hm : update_rollout_results (BoardState.new Board.default false) GameOver.Tie with
  | none => exact absurd hm (by decide)
  | some s1 =>
      have hc := C3_rollout_update (BoardState.new Board.default false) GameOver.Tie s1 hm
      show some s1.rollout_results.total = some 2
      rw [hc.1]
      rfl

end C3Rollouts

section C2Selection

/-- monte_carlo.rs: the child-choice step of selection — every child is
paired with its UCB1 score, the vector is sorted with the comparator
two.partial_cmp(one) (descending order), and Vec::pop takes the LAST
element of the sorted vector. The f32 scores are abstracted as exact
rationals. Rust's sort_by is a stable sort, and every stable sort agrees
on a totally preordered key, so the sort is modelled by stable insertion
sort with the same descending ordering. -/
def insert_desc {α : Type} (key : α → ℚ) (a : α) : List α → List α
  | [] => [a]
  | b :: t => if key a ≤ key b then b :: insert_desc key a t else a :: b :: t

def sort_by_desc {α : Type} (key : α → ℚ) : List α → List α
  | [] => []
  | a :: rest => insert_desc key a (sort_by_desc key rest)

def selection_pick {α : Type} (potential_moves : List (ℚ × α)) : Option (ℚ × α) :=
  (sort_by_desc Prod.fst potential_moves).getLast?

/-- C2: with two children scored 2 and 1 the selection step descends
into the child with the LOWEST UCB1 score, contradicting both the
comment above the sort and the specified highest-score descent. -/
theorem C2_selection_picks_minimum :
    selection_pick [((2 : ℚ), 0), ((1 : ℚ), 1)] = some (1, 1) ∧ ¬ ((2 : ℚ) ≤ 1) :=
  ⟨by decide, by decide⟩

end C2Selection

section C1AlphaBeta

/-- std isize bounds, as mathematical integers. -/
def isizeMIN : Int := -(2 ^ 63)
def isizeMAX : Int := 2 ^ 63 - 1

/-- transposition.rs: TranspositionTable of isize — the score
memoization table used by alpha_beta_pruning, keyed by the same hashed
byte sequences with the same normal-then-mirrored lookup as the state
table; insert overwrites the normal key (modelled by prepending, with
lookup taking the first match). -/
abbrev ScoreTable := List (List Nat × Int)

def score_lookup (t : ScoreTable) (key : List Nat) : Option Int :=
  (t.find? fun p => p.1 == key).map Prod.snd

def score_get_transposed (t : ScoreTable) (b : Board) : Option (Int × Bool) :=
  match score_lookup t b.iter with
  | some v => some (v, false)
  | none =>
    match score_lookup t b.flipped_iter with
    | some v => some (v, true)
    | none => none

def score_insert (t : ScoreTable) (b : Board) (v : Int) : ScoreTable :=
  (b.iter, v) :: t

/-- tree_analysis.rs: the maximizing-player loop of
alpha_beta_pruning — value starts at isize MIN, the loop breaks when
value reaches beta, alpha rises to value otherwise; rec evaluates a
child at one less fuel. -/
def ab_loop_max (rec : Nat → Int → Int → ScoreTable → Option (Int × ScoreTable)) :
    List ChildState → Int → Int → Int → ScoreTable → Option (Int × ScoreTable)
  | [], value, _, _, t => some (value, t)
  | child :: rest, value, alpha, beta, t =>
      match rec child.state alpha beta t with
      | none => none
      | some (v, t1) =>
          let value1 := max value v
          if beta ≤ value1 then some (value1, t1)
          else ab_loop_max rec rest value1 (max alpha value1) beta t1

/-- tree_analysis.rs: the minimizing-player loop, dual to
ab_loop_max. -/
def ab_loop_min (rec : Nat → Int → Int → ScoreTable → Option (Int × ScoreTable)) :
    List ChildState → Int → Int → Int → ScoreTable → Option (Int × ScoreTable)
  | [], value, _, _, t => some (value, t)
  | child :: rest, value, alpha, beta, t =>
      match rec child.state alpha beta t with
      | none => none
      | some (v, t1) =>
          let value1 := min value v
          if value1 ≤ alpha then some (value1, t1)
          else ab_loop_min rec rest value1 alpha (min beta value1) t1

/-- tree_analysis.rs: one depth-unfolding of alpha_beta_pruning:
decided outcomes score 0 / MIN / MAX, then the memoization table is
consulted (a hit is returned as the exact value), then unexpanded
leaves score by the heuristic and are memoized, and otherwise the
alpha-beta child loops run and the resulting value is memoized. -/
def alpha_beta_core
    (rec : StateStore → Nat → Int → Int → ScoreTable → Option (Int × ScoreTable))
    (e : StateStore) (id : Nat) (alpha beta : Int) (table : ScoreTable) :
    Option (Int × ScoreTable) :=
  let s := e.get_node id
  match s.game_over with
  | GameOver.Tie => some (0, table)
  | GameOver.OneWins => some (isizeMIN, table)
  | GameOver.TwoWins => some (isizeMAX, table)
  | GameOver.NoWin =>
      match score_get_transposed table s.board with
      | some (score, _) => some (score, table)
      | none =>
          if s.children.length = 0 then
            let score := how_good_is_board s.board
            some (score, score_insert table s.board score)
          else if s.get_turn then
            match ab_loop_max (fun i a b t => rec e i a b t)
                s.children isizeMIN alpha beta table with
            | none => none
            | some (value, t1) => some (value, score_insert t1 s.board value)
          else
            match ab_loop_min (fun i a b t => rec e i a b t)
                s.children isizeMAX alpha beta table with
            | none => none
            | some (value, t1) => some (value, score_insert t1 s.board value)

/-- tree_analysis.rs: alpha_beta_pruning, with fuel bounding the
recursion depth (none on fuel exhaustion; the game tree is finite, so
any fuel beyond its depth is enough). -/
def alpha_beta_pruning (fuel : Nat) :
    StateStore → Nat → Int → Int → ScoreTable → Option (Int × ScoreTable) :=
  Nat.rec (fun _ _ _ _ _ => none) (fun _ ih => alpha_beta_core ih) fuel

/-- tree_analysis.rs: how_good_is — alpha_beta_pruning from a fresh
score table with the full (isize MIN, isize MAX) window. -/
def how_good_is (fuel : Nat) (e : StateStore) (id : Nat) : Option Int :=
  (alpha_beta_pruning fuel e id isizeMIN isizeMAX []).map Prod.fst

/-- The reference evaluator of the claim, written from the spec's
words: a plain full-tree minimax that scores terminal nodes tie = 0,
OneWins = isize MIN, TwoWins = isize MAX, scores unexpanded non-terminal
leaves with the heuristic, and takes the maximum over children on
player two's turn and the minimum on player one's. -/
def plain_minimax_core (rec : StateStore → Nat → Option Int) (e : StateStore)
    (id : Nat) : Option Int :=
  let s := e.get_node id
  match s.game_over with
  | GameOver.Tie => some 0
  | GameOver.OneWins => some isizeMIN
  | GameOver.TwoWins => some isizeMAX
  | GameOver.NoWin =>
      if s.children.length = 0 then some (how_good_is_board s.board)
      else
        match s.children.foldl (fun acc child =>
            match acc, rec e child.state with
            | some l, some v => some (l ++ [v])
            | _, _ => none) (some []) with
        | none => none
        | some vals =>
            if s.get_turn then some (vals.foldl max isizeMIN)
            else some (vals.foldl min isizeMAX)

def plain_minimax (fuel : Nat) : StateStore → Nat → Option Int :=
  Nat.rec (fun _ _ => none) (fun _ ih => plain_minimax_core ih) fuel

/-- A position with 6 empty cells whose fully expanded subtree has
75 distinct nodes, found by random search: column heights 6 4 6 6 6 3 5,
bitmaps 34 12 53 45 10 1 21, player one to move. -/
def c1Board : Board := ⟨[6, 4, 6, 6, 6, 3, 5], [34, 12, 53, 45, 10, 1, 21]⟩

set_option maxHeartbeats 4000000 in
/-- The exhaustive expansion of c1Board: the transposition store
obtained by running the layer generator to exhaustion from the one-node
store holding c1Board (75 nodes, 89 child edges), written out
literally; the scans below verify that it is a fully expanded,
well-formed game subtree rooted at c1Board. -/
def c1Expanded : StateStore :=
{ nodes := [{ board := { column_heights := [6, 4, 6, 6, 6, 3, 5], column_bitmaps := [34, 12, 53, 45, 10, 1, 21] },
              children := [{ state := 1, last_move := 5, is_flipped := false },
                           { state := 2, last_move := 1, is_flipped := false },
                           { state := 3, last_move := 6, is_flipped := false }],
              rollout_results := { success := 0, total := 0 },
              turn := false,
              game_over := GameOver.NoWin },
            { board := { column_heights := [6, 4, 6, 6, 6, 4, 5], column_bitmaps := [34, 12, 53, 45, 10, 1, 21] },
              children := [{ state := 9, last_move := 5, is_flipped := false },
                           { state := 10, last_move := 1, is_flipped := false },
                           { state := 11, last_move := 6, is_flipped := false }],
              rollout_results := { success := 0, total := 0 },
              turn := true,
              game_over := GameOver.NoWin },
            { board := { column_heights := [6, 5, 6, 6, 6, 3, 5], column_bitmaps := [34, 12, 53, 45, 10, 1, 21] },
              children := [{ state := 6, last_move := 5, is_flipped := false },
                           { state := 7, last_move := 1, is_flipped := false },
                           { state := 8, last_move := 6, is_flipped := false }],
              rollout_results := { success := 0, total := 0 },
              turn := true,
              game_over := GameOver.NoWin },
            { board := { column_heights := [6, 4, 6, 6, 6, 3, 6], column_bitmaps := [34, 12, 53, 45, 10, 1, 21] },
              children := [{ state := 4, last_move := 5, is_flipped := false },
                           { state := 5, last_move := 1, is_flipped := false }],
              rollout_results := { success := 0, total := 0 },
              turn := true,
              game_over := GameOver.NoWin },
            { board := { column_heights := [6, 4, 6, 6, 6, 4, 6], column_bitmaps := [34, 12, 53, 45, 10, 9, 21] },
              children := [{ state := 25, last_move := 5, is_flipped := false },
                           { state := 23, last_move := 1, is_flipped := false }],
              rollout_results := { success := 0, total := 0 },
              turn := false,
              game_over := GameOver.NoWin },
            { board := { column_heights := [6, 5, 6, 6, 6, 3, 6], column_bitmaps := [34, 28, 53, 45, 10, 1, 21] },
              children := [{ state := 16, last_move := 5, is_flipped := false },
                           { state := 24, last_move := 1, is_flipped := false }],
              rollout_results := { success := 0, total := 0 },
              turn := false,
              game_over := GameOver.NoWin },
            { board := { column_heights := [6, 5, 6, 6, 6, 4, 5], column_bitmaps := [34, 12, 53, 45, 10, 9, 21] },
              children := [{ state := 21, last_move := 5, is_flipped := false },
                           { state := 22, last_move := 1, is_flipped := false },
                           { state := 23, last_move := 6, is_flipped := false }],
              rollout_results := { success := 0, total := 0 },
              turn := false,
              game_over := GameOver.NoWin },
            { board := { column_heights := [6, 6, 6, 6, 6, 3, 5], column_bitmaps := [34, 44, 53, 45, 10, 1, 21] },
              children := [],
              rollout_results := { success := 0, total := 0 },
              turn := false,
              game_over := GameOver.TwoWins },
            { board := { column_heights := [6, 5, 6, 6, 6, 3, 6], column_bitmaps := [34, 12, 53, 45, 10, 1, 53] },
              children := [{ state := 13, last_move := 5, is_flipped := false },
                           { state := 20, last_move := 1, is_flipped := false }],
              rollout_results := { success := 0, total := 0 },
              turn := false,
              game_over := GameOver.NoWin },
            { board := { column_heights := [6, 4, 6, 6, 6, 5, 5], column_bitmaps := [34, 12, 53, 45, 10, 17, 21] },
              children := [{ state := 17, last_move := 5, is_flipped := false },
                           { state := 18, last_move := 1, is_flipped := false },
                           { state := 19, last_move := 6, is_flipped := false }],
              rollout_results := { success := 0, total := 0 },
              turn := false,
              game_over := GameOver.NoWin },
            { board := { column_heights := [6, 5, 6, 6, 6, 4, 5], column_bitmaps := [34, 28, 53, 45, 10, 1, 21] },
              children := [{ state := 14, last_move := 5, is_flipped := false },
                           { state := 15, last_move := 1, is_flipped := false },
                           { state := 16, last_move := 6, is_flipped := false }],
              rollout_results := { success := 0, total := 0 },
              turn := false,
              game_over := GameOver.NoWin },
            { board := { column_heights := [6, 4, 6, 6, 6, 4, 6], column_bitmaps := [34, 12, 53, 45, 10, 1, 53] },
              children := [{ state := 12, last_move := 5, is_flipped := false },
                           { state := 13, last_move := 1, is_flipped := false }],
              rollout_results := { success := 0, total := 0 },
              turn := false,
              game_over := GameOver.NoWin },
            { board := { column_heights := [6, 4, 6, 6, 6, 5, 6], column_bitmaps := [34, 12, 53, 45, 10, 1, 53] },
              children := [],
              rollout_results := { success := 0, total := 0 },
              turn := true,
              game_over := GameOver.OneWins },
            { board := { column_heights := [6, 5, 6, 6, 6, 4, 6], column_bitmaps := [34, 12, 53, 45, 10, 1, 53] },
              children := [{ state := 38, last_move := 5, is_flipped := false },
                           { state := 39, last_move := 1, is_flipped := false }],
              rollout_results := { success := 0, total := 0 },
              turn := true,
              game_over := GameOver.NoWin },
            { board := { column_heights := [6, 5, 6, 6, 6, 5, 5], column_bitmaps := [34, 28, 53, 45, 10, 1, 21] },
              children := [],
              rollout_results := { success := 0, total := 0 },
              turn := true,
              game_over := GameOver.OneWins },
            { board := { column_heights := [6, 6, 6, 6, 6, 4, 5], column_bitmaps := [34, 28, 53, 45, 10, 1, 21] },
              children := [{ state := 45, last_move := 5, is_flipped := false },
                           { state := 46, last_move := 6, is_flipped := false }],
              rollout_results := { success := 0, total := 0 },
              turn := true,
              game_over := GameOver.NoWin },
            { board := { column_heights := [6, 5, 6, 6, 6, 4, 6], column_bitmaps := [34, 28, 53, 45, 10, 1, 21] },
              children := [{ state := 31, last_move := 5, is_flipped := false },
                           { state := 32, last_move := 1, is_flipped := false }],
              rollout_results := { success := 0, total := 0 },
              turn := true,
              game_over := GameOver.NoWin },
            { board := { column_heights := [6, 4, 6, 6, 6, 6, 5], column_bitmaps := [34, 12, 53, 45, 10, 17, 21] },
              children := [{ state := 43, last_move := 1, is_flipped := false },
                           { state := 44, last_move := 6, is_flipped := false }],
              rollout_results := { success := 0, total := 0 },
              turn := true,
              game_over := GameOver.NoWin },
            { board := { column_heights := [6, 5, 6, 6, 6, 5, 5], column_bitmaps := [34, 12, 53, 45, 10, 17, 21] },
              children := [{ state := 41, last_move := 5, is_flipped := false },
                           { state := 42, last_move := 1, is_flipped := false },
                           { state := 38, last_move := 6, is_flipped := false }],
              rollout_results := { success := 0, total := 0 },
              turn := true,
              game_over := GameOver.NoWin },
            { board := { column_heights := [6, 4, 6, 6, 6, 5, 6], column_bitmaps := [34, 12, 53, 45, 10, 17, 21] },
              children := [{ state := 40, last_move := 5, is_flipped := false },
                           { state := 31, last_move := 1, is_flipped := false }],
              rollout_results := { success := 0, total := 0 },
              turn := true,
              game_over := GameOver.NoWin },
            { board := { column_heights := [6, 6, 6, 6, 6, 3, 6], column_bitmaps := [34, 12, 53, 45, 10, 1, 53] },
              children := [{ state := 34, last_move := 5, is_flipped := false }],
              rollout_results := { success := 0, total := 0 },
              turn := true,
              game_over := GameOver.NoWin },
            { board := { column_heights := [6, 5, 6, 6, 6, 5, 5], column_bitmaps := [34, 12, 53, 45, 10, 9, 21] },
              children := [{ state := 35, last_move := 5, is_flipped := false },
                           { state := 36, last_move := 1, is_flipped := false },
                           { state := 37, last_move := 6, is_flipped := false }],
              rollout_results := { success := 0, total := 0 },
              turn := true,
              game_over := GameOver.NoWin },
            { board := { column_heights := [6, 6, 6, 6, 6, 4, 5], column_bitmaps := [34, 12, 53, 45, 10, 9, 21] },
              children := [{ state := 33, last_move := 5, is_flipped := false },
                           { state := 34, last_move := 6, is_flipped := false }],
              rollout_results := { success := 0, total := 0 },
              turn := true,
              game_over := GameOver.NoWin },
            { board := { column_heights := [6, 5, 6, 6, 6, 4, 6], column_bitmaps := [34, 12, 53, 45, 10, 9, 21] },
              children := [{ state := 26, last_move := 5, is_flipped := false },
                           { state := 27, last_move := 1, is_flipped := false }],
              rollout_results := { success := 0, total := 0 },
              turn := true,
              game_over := GameOver.NoWin },
            { board := { column_heights := [6, 6, 6, 6, 6, 3, 6], column_bitmaps := [34, 28, 53, 45, 10, 1, 21] },
              children := [{ state := 30, last_move := 5, is_flipped := false }],
              rollout_results := { success := 0, total := 0 },
              turn := true,
              game_over := GameOver.NoWin },
            { board := { column_heights := [6, 4, 6, 6, 6, 5, 6], column_bitmaps := [34, 12, 53, 45, 10, 9, 21] },
              children := [{ state := 28, last_move := 5, is_flipped := false },
                           { state := 29, last_move := 1, is_flipped := false }],
              rollout_results := { success := 0, total := 0 },
              turn := true,
              game_over := GameOver.NoWin },
            { board := { column_heights := [6, 5, 6, 6, 6, 5, 6], column_bitmaps := [34, 12, 53, 45, 10, 25, 21] },
              children := [{ state := 61, last_move := 5, is_flipped := false },
                           { state := 58, last_move := 1, is_flipped := false }],
              rollout_results := { success := 0, total := 0 },
              turn := false,
              game_over := GameOver.NoWin },
            { board := { column_heights := [6, 6, 6, 6, 6, 4, 6], column_bitmaps := [34, 44, 53, 45, 10, 9, 21] },
              children := [],
              rollout_results := { success := 0, total := 0 },
              turn := false,
              game_over := GameOver.TwoWins },
            { board := { column_heights := [6, 4, 6, 6, 6, 6, 6], column_bitmaps := [34, 12, 53, 45, 10, 41, 21] },
              children := [{ state := 56, last_move := 1, is_flipped := false }],
              rollout_results := { success := 0, total := 0 },
              turn := false,
              game_over := GameOver.NoWin },
            { board := { column_heights := [6, 5, 6, 6, 6, 5, 6], column_bitmaps := [34, 28, 53, 45, 10, 9, 21] },
              children := [{ state := 60, last_move := 5, is_flipped := false },
                           { state := 59, last_move := 1, is_flipped := false }],
              rollout_results := { success := 0, total := 0 },
              turn := false,
              game_over := GameOver.NoWin },
            { board := { column_heights := [6, 6, 6, 6, 6, 4, 6], column_bitmaps := [34, 28, 53, 45, 10, 9, 21] },
              children := [{ state := 59, last_move := 5, is_flipped := false }],
              rollout_results := { success := 0, total := 0 },
              turn := false,
              game_over := GameOver.NoWin },
            { board := { column_heights := [6, 5, 6, 6, 6, 5, 6], column_bitmaps := [34, 28, 53, 45, 10, 17, 21] },
              children := [{ state := 50, last_move := 5, is_flipped := false },
                           { state := 49, last_move := 1, is_flipped := false }],
              rollout_results := { success := 0, total := 0 },
              turn := false,
              game_over := GameOver.NoWin },
            { board := { column_heights := [6, 6, 6, 6, 6, 4, 6], column_bitmaps := [34, 60, 53, 45, 10, 1, 21] },
              children := [],
              rollout_results := { success := 0, total := 0 },
              turn := false,
              game_over := GameOver.TwoWins },
            { board := { column_heights := [6, 6, 6, 6, 6, 5, 5], column_bitmaps := [34, 12, 53, 45, 10, 25, 21] },
              children := [{ state := 57, last_move := 5, is_flipped := false },
                           { state := 58, last_move := 6, is_flipped := false }],
              rollout_results := { success := 0, total := 0 },
              turn := false,
              game_over := GameOver.NoWin },
            { board := { column_heights := [6, 6, 6, 6, 6, 4, 6], column_bitmaps := [34, 12, 53, 45, 10, 9, 53] },
              children := [{ state := 53, last_move := 5, is_flipped := false }],
              rollout_results := { success := 0, total := 0 },
              turn := false,
              game_over := GameOver.NoWin },
            { board := { column_heights := [6, 5, 6, 6, 6, 6, 5], column_bitmaps := [34, 12, 53, 45, 10, 41, 21] },
              children := [{ state := 55, last_move := 1, is_flipped := false },
                           { state := 56, last_move := 6, is_flipped := false }],
              rollout_results := { success := 0, total := 0 },
              turn := false,
              game_over := GameOver.NoWin },
            { board := { column_heights := [6, 6, 6, 6, 6, 5, 5], column_bitmaps := [34, 44, 53, 45, 10, 9, 21] },
              children := [],
              rollout_results := { success := 0, total := 0 },
              turn := false,
              game_over := GameOver.TwoWins },
            { board := { column_heights := [6, 5, 6, 6, 6, 5, 6], column_bitmaps := [34, 12, 53, 45, 10, 9, 53] },
              children := [{ state := 54, last_move := 5, is_flipped := false },
                           { state := 53, last_move := 1, is_flipped := false }],
              rollout_results := { success := 0, total := 0 },
              turn := false,
              game_over := GameOver.NoWin },
            { board := { column_heights := [6, 5, 6, 6, 6, 5, 6], column_bitmaps := [34, 12, 53, 45, 10, 17, 53] },
              children := [],
              rollout_results := { success := 0, total := 0 },
              turn := false,
              game_over := GameOver.TwoWins },
            { board := { column_heights := [6, 6, 6, 6, 6, 4, 6], column_bitmaps := [34, 44, 53, 45, 10, 1, 53] },
              children := [],
              rollout_results := { success := 0, total := 0 },
              turn := false,
              game_over := GameOver.TwoWins },
            { board := { column_heights := [6, 4, 6, 6, 6, 6, 6], column_bitmaps := [34, 12, 53, 45, 10, 49, 21] },
              children := [{ state := 52, last_move := 1, is_flipped := false }],
              rollout_results := { success := 0, total := 0 },
              turn := false,
              game_over := GameOver.NoWin },
            { board := { column_heights := [6, 5, 6, 6, 6, 6, 5], column_bitmaps := [34, 12, 53, 45, 10, 49, 21] },
              children := [{ state := 51, last_move := 1, is_flipped := false },
                           { state := 52, last_move := 6, is_flipped := false }],
              rollout_results := { success := 0, total := 0 },
              turn := false,
              game_over := GameOver.NoWin },
            { board := { column_heights := [6, 6, 6, 6, 6, 5, 5], column_bitmaps := [34, 44, 53, 45, 10, 17, 21] },
              children := [],
              rollout_results := { success := 0, total := 0 },
              turn := false,
              game_over := GameOver.TwoWins },
            { board := { column_heights := [6, 5, 6, 6, 6, 6, 5], column_bitmaps := [34, 28, 53, 45, 10, 17, 21] },
              children := [{ state := 48, last_move := 1, is_flipped := false },
                           { state := 50, last_move := 6, is_flipped := false }],
              rollout_results := { success := 0, total := 0 },
              turn := false,
              game_over := GameOver.NoWin },
            { board := { column_heights := [6, 4, 6, 6, 6, 6, 6], column_bitmaps := [34, 12, 53, 45, 10, 17, 53] },
              children := [],
              rollout_results := { success := 0, total := 0 },
              turn := false,
              game_over := GameOver.TwoWins },
            { board := { column_heights := [6, 6, 6, 6, 6, 5, 5], column_bitmaps := [34, 28, 53, 45, 10, 17, 21] },
              children := [{ state := 48, last_move := 5, is_flipped := false },
                           { state := 49, last_move := 6, is_flipped := false }],
              rollout_results := { success := 0, total := 0 },
              turn := false,
              game_over := GameOver.NoWin },
            { board := { column_heights := [6, 6, 6, 6, 6, 4, 6], column_bitmaps := [34, 28, 53, 45, 10, 1, 53] },
              children := [{ state := 47, last_move := 5, is_flipped := false }],
              rollout_results := { success := 0, total := 0 },
              turn := false,
              game_over := GameOver.NoWin },
            { board := { column_heights := [6, 6, 6, 6, 6, 5, 6], column_bitmaps := [34, 28, 53, 45, 10, 1, 53] },
              children := [],
              rollout_results := { success := 0, total := 0 },
              turn := true,
              game_over := GameOver.OneWins },
            { board := { column_heights := [6, 6, 6, 6, 6, 6, 5], column_bitmaps := [34, 28, 53, 45, 10, 17, 21] },
              children := [{ state := 74, last_move := 6, is_flipped := false }],
              rollout_results := { success := 0, total := 0 },
              turn := true,
              game_over := GameOver.NoWin },
            { board := { column_heights := [6, 6, 6, 6, 6, 5, 6], column_bitmaps := [34, 28, 53, 45, 10, 17, 21] },
              children := [{ state := 71, last_move := 5, is_flipped := false }],
              rollout_results := { success := 0, total := 0 },
              turn := true,
              game_over := GameOver.NoWin },
            { board := { column_heights := [6, 5, 6, 6, 6, 6, 6], column_bitmaps := [34, 28, 53, 45, 10, 17, 21] },
              children := [{ state := 72, last_move := 1, is_flipped := false }],
              rollout_results := { success := 0, total := 0 },
              turn := true,
              game_over := GameOver.NoWin },
            { board := { column_heights := [6, 6, 6, 6, 6, 6, 5], column_bitmaps := [34, 12, 53, 45, 10, 49, 21] },
              children := [{ state := 73, last_move := 6, is_flipped := false }],
              rollout_results := { success := 0, total := 0 },
              turn := true,
              game_over := GameOver.NoWin },
            { board := { column_heights := [6, 5, 6, 6, 6, 6, 6], column_bitmaps := [34, 12, 53, 45, 10, 49, 21] },
              children := [{ state := 70, last_move := 1, is_flipped := false }],
              rollout_results := { success := 0, total := 0 },
              turn := true,
              game_over := GameOver.NoWin },
            { board := { column_heights := [6, 6, 6, 6, 6, 5, 6], column_bitmaps := [34, 12, 53, 45, 10, 9, 53] },
              children := [{ state := 68, last_move := 5, is_flipped := false }],
              rollout_results := { success := 0, total := 0 },
              turn := true,
              game_over := GameOver.NoWin },
            { board := { column_heights := [6, 5, 6, 6, 6, 6, 6], column_bitmaps := [34, 12, 53, 45, 10, 9, 53] },
              children := [{ state := 69, last_move := 1, is_flipped := false }],
              rollout_results := { success := 0, total := 0 },
              turn := true,
              game_over := GameOver.NoWin },
            { board := { column_heights := [6, 6, 6, 6, 6, 6, 5], column_bitmaps := [34, 12, 53, 45, 10, 41, 21] },
              children := [{ state := 68, last_move := 6, is_flipped := false }],
              rollout_results := { success := 0, total := 0 },
              turn := true,
              game_over := GameOver.NoWin },
            { board := { column_heights := [6, 5, 6, 6, 6, 6, 6], column_bitmaps := [34, 12, 53, 45, 10, 41, 21] },
              children := [{ state := 64, last_move := 1, is_flipped := false }],
              rollout_results := { success := 0, total := 0 },
              turn := true,
              game_over := GameOver.NoWin },
            { board := { column_heights := [6, 6, 6, 6, 6, 6, 5], column_bitmaps := [34, 12, 53, 45, 10, 25, 21] },
              children := [{ state := 67, last_move := 6, is_flipped := false }],
              rollout_results := { success := 0, total := 0 },
              turn := true,
              game_over := GameOver.NoWin },
            { board := { column_heights := [6, 6, 6, 6, 6, 5, 6], column_bitmaps := [34, 12, 53, 45, 10, 25, 21] },
              children := [{ state := 62, last_move := 5, is_flipped := false }],
              rollout_results := { success := 0, total := 0 },
              turn := true,
              game_over := GameOver.NoWin },
            { board := { column_heights := [6, 6, 6, 6, 6, 5, 6], column_bitmaps := [34, 28, 53, 45, 10, 9, 21] },
              children := [{ state := 65, last_move := 5, is_flipped := false }],
              rollout_results := { success := 0, total := 0 },
              turn := true,
              game_over := GameOver.NoWin },
            { board := { column_heights := [6, 5, 6, 6, 6, 6, 6], column_bitmaps := [34, 28, 53, 45, 10, 9, 21] },
              children := [{ state := 66, last_move := 1, is_flipped := false }],
              rollout_results := { success := 0, total := 0 },
              turn := true,
              game_over := GameOver.NoWin },
            { board := { column_heights := [6, 5, 6, 6, 6, 6, 6], column_bitmaps := [34, 12, 53, 45, 10, 25, 21] },
              children := [{ state := 63, last_move := 1, is_flipped := false }],
              rollout_results := { success := 0, total := 0 },
              turn := true,
              game_over := GameOver.NoWin },
            { board := { column_heights := [6, 6, 6, 6, 6, 6, 6], column_bitmaps := [34, 12, 53, 45, 10, 57, 21] },
              children := [],
              rollout_results := { success := 0, total := 0 },
              turn := false,
              game_over := GameOver.Tie },
            { board := { column_heights := [6, 6, 6, 6, 6, 6, 6], column_bitmaps := [34, 44, 53, 45, 10, 25, 21] },
              children := [],
              rollout_results := { success := 0, total := 0 },
              turn := false,
              game_over := GameOver.TwoWins },
            { board := { column_heights := [6, 6, 6, 6, 6, 6, 6], column_bitmaps := [34, 44, 53, 45, 10, 41, 21] },
              children := [],
              rollout_results := { success := 0, total := 0 },
              turn := false,
              game_over := GameOver.TwoWins },
            { board := { column_heights := [6, 6, 6, 6, 6, 6, 6], column_bitmaps := [34, 28, 53, 45, 10, 41, 21] },
              children := [],
              rollout_results := { success := 0, total := 0 },
              turn := false,
              game_over := GameOver.Tie },
            { board := { column_heights := [6, 6, 6, 6, 6, 6, 6], column_bitmaps := [34, 60, 53, 45, 10, 9, 21] },
              children := [],
              rollout_results := { success := 0, total := 0 },
              turn := false,
              game_over := GameOver.TwoWins },
            { board := { column_heights := [6, 6, 6, 6, 6, 6, 6], column_bitmaps := [34, 12, 53, 45, 10, 25, 53] },
              children := [],
              rollout_results := { success := 0, total := 0 },
              turn := false,
              game_over := GameOver.TwoWins },
            { board := { column_heights := [6, 6, 6, 6, 6, 6, 6], column_bitmaps := [34, 12, 53, 45, 10, 41, 53] },
              children := [],
              rollout_results := { success := 0, total := 0 },
              turn := false,
              game_over := GameOver.Tie },
            { board := { column_heights := [6, 6, 6, 6, 6, 6, 6], column_bitmaps := [34, 44, 53, 45, 10, 9, 53] },
              children := [],
              rollout_results := { success := 0, total := 0 },
              turn := false,
              game_over := GameOver.TwoWins },
            { board := { column_heights := [6, 6, 6, 6, 6, 6, 6], column_bitmaps := [34, 44, 53, 45, 10, 49, 21] },
              children := [],
              rollout_results := { success := 0, total := 0 },
              turn := false,
              game_over := GameOver.TwoWins },
            { board := { column_heights := [6, 6, 6, 6, 6, 6, 6], column_bitmaps := [34, 28, 53, 45, 10, 49, 21] },
              children := [],
              rollout_results := { success := 0, total := 0 },
              turn := false,
              game_over := GameOver.Tie },
            { board := { column_heights := [6, 6, 6, 6, 6, 6, 6], column_bitmaps := [34, 60, 53, 45, 10, 17, 21] },
              children := [],
              rollout_results := { success := 0, total := 0 },
              turn := false,
              game_over := GameOver.TwoWins },
            { board := { column_heights := [6, 6, 6, 6, 6, 6, 6], column_bitmaps := [34, 12, 53, 45, 10, 49, 53] },
              children := [],
              rollout_results := { success := 0, total := 0 },
              turn := false,
              game_over := GameOver.TwoWins },
            { board := { column_heights := [6, 6, 6, 6, 6, 6, 6], column_bitmaps := [34, 28, 53, 45, 10, 17, 53] },
              children := [],
              rollout_results := { success := 0, total := 0 },
              turn := false,
              game_over := GameOver.TwoWins }],
  table := [([6, 6, 6, 6, 6, 6, 6, 34, 28, 53, 45, 10, 17, 53], 74),
            ([6, 6, 6, 6, 6, 6, 6, 34, 12, 53, 45, 10, 49, 53], 73),
            ([6, 6, 6, 6, 6, 6, 6, 34, 60, 53, 45, 10, 17, 21], 72),
            ([6, 6, 6, 6, 6, 6, 6, 34, 28, 53, 45, 10, 49, 21], 71),
            ([6, 6, 6, 6, 6, 6, 6, 34, 44, 53, 45, 10, 49, 21], 70),
            ([6, 6, 6, 6, 6, 6, 6, 34, 44, 53, 45, 10, 9, 53], 69),
            ([6, 6, 6, 6, 6, 6, 6, 34, 12, 53, 45, 10, 41, 53], 68),
            ([6, 6, 6, 6, 6, 6, 6, 34, 12, 53, 45, 10, 25, 53], 67),
            ([6, 6, 6, 6, 6, 6, 6, 34, 60, 53, 45, 10, 9, 21], 66),
            ([6, 6, 6, 6, 6, 6, 6, 34, 28, 53, 45, 10, 41, 21], 65),
            ([6, 6, 6, 6, 6, 6, 6, 34, 44, 53, 45, 10, 41, 21], 64),
            ([6, 6, 6, 6, 6, 6, 6, 34, 44, 53, 45, 10, 25, 21], 63),
            ([6, 6, 6, 6, 6, 6, 6, 34, 12, 53, 45, 10, 57, 21], 62),
            ([6, 5, 6, 6, 6, 6, 6, 34, 12, 53, 45, 10, 25, 21], 61),
            ([6, 5, 6, 6, 6, 6, 6, 34, 28, 53, 45, 10, 9, 21], 60),
            ([6, 6, 6, 6, 6, 5, 6, 34, 28, 53, 45, 10, 9, 21], 59),
            ([6, 6, 6, 6, 6, 5, 6, 34, 12, 53, 45, 10, 25, 21], 58),
            ([6, 6, 6, 6, 6, 6, 5, 34, 12, 53, 45, 10, 25, 21], 57),
            ([6, 5, 6, 6, 6, 6, 6, 34, 12, 53, 45, 10, 41, 21], 56),
            ([6, 6, 6, 6, 6, 6, 5, 34, 12, 53, 45, 10, 41, 21], 55),
            ([6, 5, 6, 6, 6, 6, 6, 34, 12, 53, 45, 10, 9, 53], 54),
            ([6, 6, 6, 6, 6, 5, 6, 34, 12, 53, 45, 10, 9, 53], 53),
            ([6, 5, 6, 6, 6, 6, 6, 34, 12, 53, 45, 10, 49, 21], 52),
            ([6, 6, 6, 6, 6, 6, 5, 34, 12, 53, 45, 10, 49, 21], 51),
            ([6, 5, 6, 6, 6, 6, 6, 34, 28, 53, 45, 10, 17, 21], 50),
            ([6, 6, 6, 6, 6, 5, 6, 34, 28, 53, 45, 10, 17, 21], 49),
            ([6, 6, 6, 6, 6, 6, 5, 34, 28, 53, 45, 10, 17, 21], 48),
            ([6, 6, 6, 6, 6, 5, 6, 34, 28, 53, 45, 10, 1, 53], 47),
            ([6, 6, 6, 6, 6, 4, 6, 34, 28, 53, 45, 10, 1, 53], 46),
            ([6, 6, 6, 6, 6, 5, 5, 34, 28, 53, 45, 10, 17, 21], 45),
            ([6, 4, 6, 6, 6, 6, 6, 34, 12, 53, 45, 10, 17, 53], 44),
            ([6, 5, 6, 6, 6, 6, 5, 34, 28, 53, 45, 10, 17, 21], 43),
            ([6, 6, 6, 6, 6, 5, 5, 34, 44, 53, 45, 10, 17, 21], 42),
            ([6, 5, 6, 6, 6, 6, 5, 34, 12, 53, 45, 10, 49, 21], 41),
            ([6, 4, 6, 6, 6, 6, 6, 34, 12, 53, 45, 10, 49, 21], 40),
            ([6, 6, 6, 6, 6, 4, 6, 34, 44, 53, 45, 10, 1, 53], 39),
            ([6, 5, 6, 6, 6, 5, 6, 34, 12, 53, 45, 10, 17, 53], 38),
            ([6, 5, 6, 6, 6, 5, 6, 34, 12, 53, 45, 10, 9, 53], 37),
            ([6, 6, 6, 6, 6, 5, 5, 34, 44, 53, 45, 10, 9, 21], 36),
            ([6, 5, 6, 6, 6, 6, 5, 34, 12, 53, 45, 10, 41, 21], 35),
            ([6, 6, 6, 6, 6, 4, 6, 34, 12, 53, 45, 10, 9, 53], 34),
            ([6, 6, 6, 6, 6, 5, 5, 34, 12, 53, 45, 10, 25, 21], 33),
            ([6, 6, 6, 6, 6, 4, 6, 34, 60, 53, 45, 10, 1, 21], 32),
            ([6, 5, 6, 6, 6, 5, 6, 34, 28, 53, 45, 10, 17, 21], 31),
            ([6, 6, 6, 6, 6, 4, 6, 34, 28, 53, 45, 10, 9, 21], 30),
            ([6, 5, 6, 6, 6, 5, 6, 34, 28, 53, 45, 10, 9, 21], 29),
            ([6, 4, 6, 6, 6, 6, 6, 34, 12, 53, 45, 10, 41, 21], 28),
            ([6, 6, 6, 6, 6, 4, 6, 34, 44, 53, 45, 10, 9, 21], 27),
            ([6, 5, 6, 6, 6, 5, 6, 34, 12, 53, 45, 10, 25, 21], 26),
            ([6, 4, 6, 6, 6, 5, 6, 34, 12, 53, 45, 10, 9, 21], 25),
            ([6, 6, 6, 6, 6, 3, 6, 34, 28, 53, 45, 10, 1, 21], 24),
            ([6, 5, 6, 6, 6, 4, 6, 34, 12, 53, 45, 10, 9, 21], 23),
            ([6, 6, 6, 6, 6, 4, 5, 34, 12, 53, 45, 10, 9, 21], 22),
            ([6, 5, 6, 6, 6, 5, 5, 34, 12, 53, 45, 10, 9, 21], 21),
            ([6, 6, 6, 6, 6, 3, 6, 34, 12, 53, 45, 10, 1, 53], 20),
            ([6, 4, 6, 6, 6, 5, 6, 34, 12, 53, 45, 10, 17, 21], 19),
            ([6, 5, 6, 6, 6, 5, 5, 34, 12, 53, 45, 10, 17, 21], 18),
            ([6, 4, 6, 6, 6, 6, 5, 34, 12, 53, 45, 10, 17, 21], 17),
            ([6, 5, 6, 6, 6, 4, 6, 34, 28, 53, 45, 10, 1, 21], 16),
            ([6, 6, 6, 6, 6, 4, 5, 34, 28, 53, 45, 10, 1, 21], 15),
            ([6, 5, 6, 6, 6, 5, 5, 34, 28, 53, 45, 10, 1, 21], 14),
            ([6, 5, 6, 6, 6, 4, 6, 34, 12, 53, 45, 10, 1, 53], 13),
            ([6, 4, 6, 6, 6, 5, 6, 34, 12, 53, 45, 10, 1, 53], 12),
            ([6, 4, 6, 6, 6, 4, 6, 34, 12, 53, 45, 10, 1, 53], 11),
            ([6, 5, 6, 6, 6, 4, 5, 34, 28, 53, 45, 10, 1, 21], 10),
            ([6, 4, 6, 6, 6, 5, 5, 34, 12, 53, 45, 10, 17, 21], 9),
            ([6, 5, 6, 6, 6, 3, 6, 34, 12, 53, 45, 10, 1, 53], 8),
            ([6, 6, 6, 6, 6, 3, 5, 34, 44, 53, 45, 10, 1, 21], 7),
            ([6, 5, 6, 6, 6, 4, 5, 34, 12, 53, 45, 10, 9, 21], 6),
            ([6, 5, 6, 6, 6, 3, 6, 34, 28, 53, 45, 10, 1, 21], 5),
            ([6, 4, 6, 6, 6, 4, 6, 34, 12, 53, 45, 10, 9, 21], 4),
            ([6, 4, 6, 6, 6, 3, 6, 34, 12, 53, 45, 10, 1, 21], 3),
            ([6, 5, 6, 6, 6, 3, 5, 34, 12, 53, 45, 10, 1, 21], 2),
            ([6, 4, 6, 6, 6, 4, 5, 34, 12, 53, 45, 10, 1, 21], 1),
            ([6, 4, 6, 6, 6, 3, 5, 34, 12, 53, 45, 10, 1, 21], 0)] }

/-- Scan: every non-terminal node has children (no unexpanded
non-terminal leaf remains). -/
def fully_expanded (e : StateStore) : Bool :=
  e.nodes.all fun s => (s.game_over != GameOver.NoWin) || (s.children.length != 0)

/-- Scan: every stored outcome is is_game_over of the node's board and
turn. -/
def outcomes_consistent (e : StateStore) : Bool :=
  e.nodes.all fun s => s.game_over == is_game_over s.board s.turn

/-- Scan: every child edge is a successful drop of the parent's color
into the recorded column, reaching a node of the opposite turn whose
board is the dropped board, mirrored when the edge is Flipped. -/
def edges_consistent (e : StateStore) : Bool :=
  e.nodes.all fun s =>
    s.children.all fun c =>
      decide (c.state < e.nodes.length) &&
      (s.board.drop_piece c.last_move s.turn).2 &&
      ((e.get_node c.state).turn == !s.turn) &&
      (if c.is_flipped then
        (e.get_node c.state).board == (s.board.drop_piece c.last_move s.turn).1.flip
      else
        (e.get_node c.state).board == (s.board.drop_piece c.last_move s.turn).1)

/-- Scan: an expanded node has a child edge for every legal column. -/
def children_complete (e : StateStore) : Bool :=
  e.nodes.all fun s =>
    (s.children.length == 0) ||
    (List.range BOARD_WIDTH).all fun col =>
      !(s.board.drop_piece col s.turn).2 || s.children.any fun c => c.last_move == col

/-- Scan: nodes with a decided outcome are childless. -/
def decided_childless (e : StateStore) : Bool :=
  e.nodes.all fun s => (s.game_over == GameOver.NoWin) || (s.children.length == 0)

/-- All the scans, plus the root check. -/
def c1Checks : Bool :=
  fully_expanded c1Expanded && outcomes_consistent c1Expanded &&
  edges_consistent c1Expanded && children_complete c1Expanded &&
  decided_childless c1Expanded &&
  ((c1Expanded.get_node 0).board == c1Board) &&
  ((c1Expanded.get_node 0).turn == false)

set_option maxRecDepth 100000 in
set_option maxHeartbeats 10000000 in
/-- C1: c1Expanded is an exhaustively expanded game subtree rooted at
c1Board (all scans pass), yet alpha_beta_pruning from the full
(isize MIN, isize MAX) window returns 0 while the plain minimax
reference of the claim returns isize MAX: the memoization table stores
values computed under alpha-beta cutoffs -- bounds, not exact values --
and later returns them as exact. -/
theorem C1_alpha_beta_disagrees_with_minimax :
    c1Checks = true ∧
      how_good_is 10 c1Expanded 0 = some 0 ∧
      plain_minimax 10 c1Expanded 0 = some isizeMAX ∧ (0 : Int) ≠ isizeMAX :=
  ⟨by decide, by decide, by decide, by decide⟩

end C1AlphaBeta
